import Mathlib

/-!
A verification development for the FERS scenario transcoder
(`packages/fers-ui/src-tauri/src/xml_handler.rs` and `scenario.rs`).

The transcoder converts between the in-memory `ScenarioState` model and a
hierarchical XML document.  We embed it shallowly:

* Rust `f64` values are modelled as `Int`.  The transcoder performs no
  floating-point arithmetic: numbers are only carried through, rendered to
  decimal text and re-parsed (Rust's `f64` Display/FromStr round-trips
  exactly), and cast once (`f64 as u64`, a saturating cast, modelled
  explicitly on `Int`).  Modelling numbers as integers keeps every value a
  kernel-computable object while preserving sign and magnitude distinctions.
* The XML surface is modelled as an element tree `XmlElem` rather than a
  character string: the writer (`quick_xml::Writer`) and the reader agree on
  the textual rendering of a tree, so all structural claims (which elements,
  attributes and text appear, in which order) are statements about the tree.
  Attribute values and text content carry an `XVal` (string / number /
  boolean), matching the three renderings used by the Rust code.
* `Uuid::new_v4()` draws fresh identifiers from an ambient random source.
  We model the source explicitly as a supply `fresh : Nat → String`; the
  n-th `Uuid::new_v4()` call of one conversion returns `fresh n`.
* `quick_xml::de::from_str::<XmlSimulation>` is the serde-derived
  deserializer for the `Xml*` mirror structs; we model its documented
  behaviour field by field: `@`-renamed fields read attributes, other fields
  read child elements, `Option` fields tolerate absence, `Vec` fields with
  `#[serde(default)]` collect all children of the renamed tag in order,
  any other missing field is an error, and unknown attributes/elements are
  ignored (serde's default).
-/

namespace FERS

/-- A value carried by an XML attribute or by element text content:
the Rust code renders strings, numbers (`f64`/`u64`/`i64`, modelled as
`Int`) and booleans. -/
inductive XVal where
  | str (s : String)
  | num (x : Int)
  | bool (b : Bool)
deriving DecidableEq, Repr

/-- An XML element: tag name, attributes in writing order, optional text
content and child elements in writing order. -/
inductive XmlElem where
  | mk (name : String) (attrs : List (String × XVal)) (content : Option XVal)
      (children : List XmlElem)

/-- Tag name of an element. -/
def XmlElem.name : XmlElem → String
  | .mk n _ _ _ => n

/-- Attribute list of an element. -/
def XmlElem.attrs : XmlElem → List (String × XVal)
  | .mk _ a _ _ => a

/-- Text content of an element. -/
def XmlElem.content : XmlElem → Option XVal
  | .mk _ _ c _ => c

/-- Child elements of an element. -/
def XmlElem.children : XmlElem → List XmlElem
  | .mk _ _ _ c => c

-- ====================================================================
--  The Scenario Model (scenario.rs)
-- ====================================================================

/-- `ExportOptions` of `scenario.rs`. -/
structure ExportOptions where
  xml : Bool
  csv : Bool
  binary : Bool
deriving DecidableEq, Repr

/-- `GlobalParameters` of `scenario.rs`.  Rust field `end` is spelled
`endT` and `export` is spelled `exportOptions` here (both are Lean
keywords); `oversample_ratio` is spelled `oversample` (its XML tag). -/
structure GlobalParameters where
  id : String
  type : String
  simulation_name : String
  start : Int
  endT : Int
  rate : Int
  simSamplingRate : Option Int
  c : Int
  random_seed : Option Int
  adc_bits : Int
  oversample : Int
  exportOptions : ExportOptions
deriving DecidableEq, Repr

/-- `Pulse` of `scenario.rs`. -/
structure Pulse where
  id : String
  type : String
  name : String
  pulseType : String
  power : Int
  carrier : Int
  filename : Option String
deriving DecidableEq, Repr

/-- `NoiseEntry` of `scenario.rs`. -/
structure NoiseEntry where
  id : String
  alpha : Int
  weight : Int
deriving DecidableEq, Repr

/-- `Timing` of `scenario.rs`. -/
structure Timing where
  id : String
  type : String
  name : String
  frequency : Int
  freqOffset : Option Int
  randomFreqOffsetStdev : Option Int
  phaseOffset : Option Int
  randomPhaseOffsetStdev : Option Int
  noiseEntries : List NoiseEntry
deriving DecidableEq, Repr

/-- `Antenna` of `scenario.rs`. -/
structure Antenna where
  id : String
  type : String
  name : String
  pattern : String
  filename : Option String
  efficiency : Option Int
  alpha : Option Int
  beta : Option Int
  gamma : Option Int
  azscale : Option Int
  elscale : Option Int
  diameter : Option Int
deriving DecidableEq, Repr

/-- `PositionWaypoint` of `scenario.rs`. -/
structure PositionWaypoint where
  id : String
  x : Int
  y : Int
  altitude : Int
  time : Int
deriving DecidableEq, Repr

/-- `MotionPath` of `scenario.rs`. -/
structure MotionPath where
  interpolation : String
  waypoints : List PositionWaypoint
deriving DecidableEq, Repr

/-- `FixedRotation` of `scenario.rs`. -/
structure FixedRotation where
  startAzimuth : Int
  startElevation : Int
  azimuthRate : Int
  elevationRate : Int
deriving DecidableEq, Repr

/-- `RotationWaypoint` of `scenario.rs`. -/
structure RotationWaypoint where
  id : String
  azimuth : Int
  elevation : Int
  time : Int
deriving DecidableEq, Repr

/-- `RotationPath` of `scenario.rs`. -/
structure RotationPath where
  interpolation : String
  waypoints : List RotationWaypoint
deriving DecidableEq, Repr

/-- `Rotation` of `scenario.rs`: a closed tagged variant. -/
inductive Rotation where
  | Fixed (r : FixedRotation)
  | Path (r : RotationPath)
deriving DecidableEq, Repr

/-- `Monostatic` of `scenario.rs`. -/
structure Monostatic where
  name : String
  radarType : String
  window_skip : Int
  window_length : Int
  prf : Int
  antennaId : Option String
  pulseId : Option String
  timingId : Option String
  noiseTemperature : Option Int
  noDirectPaths : Bool
  noPropagationLoss : Bool
deriving DecidableEq, Repr

/-- `Transmitter` of `scenario.rs`. -/
structure Transmitter where
  name : String
  radarType : String
  prf : Int
  antennaId : Option String
  pulseId : Option String
  timingId : Option String
deriving DecidableEq, Repr

/-- `Receiver` of `scenario.rs`. -/
structure Receiver where
  name : String
  window_skip : Int
  window_length : Int
  prf : Int
  antennaId : Option String
  timingId : Option String
  noiseTemperature : Option Int
  noDirectPaths : Bool
  noPropagationLoss : Bool
deriving DecidableEq, Repr

/-- `Target` of `scenario.rs`. -/
structure Target where
  name : String
  rcs_type : String
  rcs_value : Option Int
  rcs_filename : Option String
  rcs_model : String
  rcs_k : Option Int
deriving DecidableEq, Repr

/-- `PlatformComponent` of `scenario.rs`: a closed tagged variant. -/
inductive PlatformComponent where
  | None
  | Monostatic (m : Monostatic)
  | Transmitter (t : Transmitter)
  | Receiver (r : Receiver)
  | Target (t : Target)
deriving DecidableEq, Repr

/-- `Platform` of `scenario.rs`. -/
structure Platform where
  id : String
  type : String
  name : String
  motionPath : MotionPath
  rotation : Rotation
  component : PlatformComponent
deriving DecidableEq, Repr

/-- `ScenarioState` of `scenario.rs`. -/
structure ScenarioState where
  globalParameters : GlobalParameters
  pulses : List Pulse
  timings : List Timing
  antennas : List Antenna
  platforms : List Platform
deriving DecidableEq, Repr

-- ====================================================================
--  HashMap model
-- ====================================================================

/-- Model of `std::collections::HashMap<String, String>` as an
association list in insertion order.  `insert` appends, so a later
insert for the same key shadows an earlier one ("the table takes the
last write"), which `hmLookup` realises by giving the tail priority. -/
def hmLookup : List (String × String) → String → Option String
  | [], _ => none
  | (k, v) :: rest, key =>
    match hmLookup rest key with
    | some r => some r
    | none => if k = key then some v else none

-- ====================================================================
--  XML-direct mapping structs (xml_handler.rs, deserialization side)
-- ====================================================================

/-- `XmlExport` of `xml_handler.rs`. -/
structure XmlExport where
  binary : Bool
  csv : Bool
  xml : Bool
deriving DecidableEq, Repr

/-- `XmlParameters` of `xml_handler.rs`.  `randomseed` is a `u64`,
modelled as `Nat`; Rust field `export` is spelled `exportFlags` here
(`export` is a Lean keyword). -/
structure XmlParameters where
  starttime : Int
  endtime : Int
  rate : Int
  c : Int
  simSamplingRate : Option Int
  randomseed : Option Nat
  adc_bits : Int
  oversample : Int
  exportFlags : XmlExport
deriving DecidableEq, Repr

/-- `XmlPulse` of `xml_handler.rs`. -/
structure XmlPulse where
  name : String
  ptype : String
  filename : Option String
  power : Int
  carrier : Int
deriving DecidableEq, Repr

/-- `XmlNoiseEntry` of `xml_handler.rs`. -/
structure XmlNoiseEntry where
  alpha : Int
  weight : Int
deriving DecidableEq, Repr

/-- `XmlTiming` of `xml_handler.rs`. -/
structure XmlTiming where
  name : String
  frequency : Int
  freq_offset : Option Int
  random_freq_offset_stdev : Option Int
  phase_offset : Option Int
  random_phase_offset_stdev : Option Int
  noise_entries : List XmlNoiseEntry
deriving DecidableEq, Repr

/-- `XmlAntenna` of `xml_handler.rs`. -/
structure XmlAntenna where
  name : String
  pattern : String
  filename : Option String
  efficiency : Option Int
  alpha : Option Int
  beta : Option Int
  gamma : Option Int
  azscale : Option Int
  elscale : Option Int
  diameter : Option Int
deriving DecidableEq, Repr

/-- `XmlPositionWaypoint` of `xml_handler.rs`. -/
structure XmlPositionWaypoint where
  x : Int
  y : Int
  altitude : Int
  time : Int
deriving DecidableEq, Repr

/-- `XmlMotionPath` of `xml_handler.rs`. -/
structure XmlMotionPath where
  interpolation : String
  waypoints : List XmlPositionWaypoint
deriving DecidableEq, Repr

/-- `XmlFixedRotation` of `xml_handler.rs`. -/
structure XmlFixedRotation where
  startazimuth : Int
  startelevation : Int
  azimuthrate : Int
  elevationrate : Int
deriving DecidableEq, Repr

/-- `XmlTransmitter` of `xml_handler.rs`.  Note: `antenna`, `pulse` and
`timing` are required (`String`, not `Option<String>`). -/
structure XmlTransmitter where
  name : String
  antenna : String
  pulse : String
  timing : String
  prf : Int
deriving DecidableEq, Repr

/-- `XmlReceiver` of `xml_handler.rs`.  Note: `antenna` and `timing` are
required (`String`, not `Option<String>`). -/
structure XmlReceiver where
  name : String
  antenna : String
  timing : String
  window_skip : Int
  window_length : Int
  prf : Int
  noise_temp : Option Int
deriving DecidableEq, Repr

/-- `XmlRcs` of `xml_handler.rs`. -/
structure XmlRcs where
  rtype : String
  filename : Option String
  value : Option Int
deriving DecidableEq, Repr

/-- `XmlModel` of `xml_handler.rs`. -/
structure XmlModel where
  mtype : String
  k : Option Int
deriving DecidableEq, Repr

/-- `XmlTarget` of `xml_handler.rs`. -/
structure XmlTarget where
  name : String
  rcs : XmlRcs
  model : Option XmlModel
deriving DecidableEq, Repr

/-- `XmlPlatform` of `xml_handler.rs`.  There is no `rotationpath`
field: a `rotationpath` element in a document is an unknown element for
the serde deserializer and is ignored. -/
structure XmlPlatform where
  name : String
  motionpath : XmlMotionPath
  fixedrotation : Option XmlFixedRotation
  transmitter : Option XmlTransmitter
  receiver : Option XmlReceiver
  target : Option XmlTarget
deriving DecidableEq, Repr

/-- `XmlSimulation` of `xml_handler.rs`. -/
structure XmlSimulation where
  name : String
  parameters : XmlParameters
  pulses : List XmlPulse
  timings : List XmlTiming
  antennas : List XmlAntenna
  platforms : List XmlPlatform
deriving DecidableEq, Repr

-- ====================================================================
--  XML generation (serialization), from `generate_xml_from_state`
-- ====================================================================

/-- `write_simple_tag`: an element with only text content. -/
def simpleTag (tag : String) (v : XVal) : XmlElem := .mk tag [] (some v) []

/-- `write_optional_tag`: emits one simple tag when the value is
present and nothing at all when it is `None`. -/
def optionalTag (tag : String) : Option XVal → List XmlElem
  | some v => [simpleTag tag v]
  | none => []

/-- An optional attribute: present exactly when the value is. -/
def optAttr (k : String) : Option String → List (String × XVal)
  | some v => [(k, .str v)]
  | none => []

/-- Rust's saturating cast `f64 as u64` (used on `random_seed`),
on the `Int` model of `f64`: negative values clamp to `0`, values above
`u64::MAX` clamp to `u64::MAX`. -/
def f64AsU64 (x : Int) : Nat := if x < 0 then 0 else min x.toNat (2 ^ 64 - 1)

/-- The `<parameters>` block of `generate_xml_from_state`
(xml_handler.rs lines 66–91). -/
def genParameters (p : GlobalParameters) : XmlElem :=
  .mk "parameters" [] none
    ([simpleTag "starttime" (.num p.start),
      simpleTag "endtime" (.num p.endT),
      simpleTag "rate" (.num p.rate),
      simpleTag "c" (.num p.c)]
     ++ optionalTag "simSamplingRate" (p.simSamplingRate.map XVal.num)
     ++ optionalTag "randomseed"
          ((p.random_seed.map f64AsU64).map (fun n => XVal.num (n : Int)))
     ++ [simpleTag "adc_bits" (.num p.adc_bits),
         simpleTag "oversample" (.num p.oversample),
         .mk "export"
           [("binary", .bool p.exportOptions.binary),
            ("csv", .bool p.exportOptions.csv),
            ("xml", .bool p.exportOptions.xml)] none []])

/-- One `<pulse>` element of `generate_xml_from_state`.  The `type`
attribute normalizes the model's `pulseType`: `"cw"` or `"continuous"`
render as `"continuous"`, anything else as `"file"`. -/
def genPulse (p : Pulse) : XmlElem :=
  .mk "pulse"
    ([("name", .str p.name),
      ("type", .str (if p.pulseType = "cw" ∨ p.pulseType = "continuous"
                     then "continuous" else "file"))]
     ++ optAttr "filename" p.filename)
    none
    [simpleTag "power" (.num p.power), simpleTag "carrier" (.num p.carrier)]

/-- One `<noise_entry>` element. -/
def genNoiseEntry (e : NoiseEntry) : XmlElem :=
  .mk "noise_entry" [] none
    [simpleTag "alpha" (.num e.alpha), simpleTag "weight" (.num e.weight)]

/-- One `<timing>` element of `generate_xml_from_state`. -/
def genTiming (t : Timing) : XmlElem :=
  .mk "timing" [("name", .str t.name)] none
    ([simpleTag "frequency" (.num t.frequency)]
     ++ optionalTag "freq_offset" (t.freqOffset.map XVal.num)
     ++ optionalTag "random_freq_offset_stdev" (t.randomFreqOffsetStdev.map XVal.num)
     ++ optionalTag "phase_offset" (t.phaseOffset.map XVal.num)
     ++ optionalTag "random_phase_offset_stdev" (t.randomPhaseOffsetStdev.map XVal.num)
     ++ t.noiseEntries.map genNoiseEntry)

/-- One `<antenna>` element of `generate_xml_from_state`.
Pattern-specific parameters are emitted only for the pattern that
defines them, mirroring the `match antenna.pattern.as_str()` in the
Rust code. -/
def genAntenna (a : Antenna) : XmlElem :=
  .mk "antenna"
    ([("name", .str a.name), ("pattern", .str a.pattern)]
     ++ optAttr "filename" a.filename)
    none
    (optionalTag "efficiency" (a.efficiency.map XVal.num)
     ++ (if a.pattern = "sinc" then
           optionalTag "alpha" (a.alpha.map XVal.num)
           ++ optionalTag "beta" (a.beta.map XVal.num)
           ++ optionalTag "gamma" (a.gamma.map XVal.num)
         else if a.pattern = "gaussian" then
           optionalTag "azscale" (a.azscale.map XVal.num)
           ++ optionalTag "elscale" (a.elscale.map XVal.num)
         else if a.pattern = "squarehorn" ∨ a.pattern = "parabolic" then
           optionalTag "diameter" (a.diameter.map XVal.num)
         else []))

/-- The `id_to_name` table of `generate_xml_from_state` (lines
177–193): identifier→name pairs for pulses, then timings, then
antennas, collected into a `HashMap` (so on identifier collision the
last insertion, i.e. the latest pair in this list, wins). -/
def id_to_name (s : ScenarioState) : List (String × String) :=
  s.pulses.map (fun p => (p.id, p.name))
  ++ s.timings.map (fun t => (t.id, t.name))
  ++ s.antennas.map (fun a => (a.id, a.name))

/-- The `get_name` closure (lines 268–271): resolve an optional
identifier reference through the `id_to_name` table. -/
def getName (tbl : List (String × String)) (id : Option String) : Option String :=
  id.bind (hmLookup tbl)

/-- One `<motionpath>` element. -/
def genMotionPath (m : MotionPath) : XmlElem :=
  .mk "motionpath" [("interpolation", .str m.interpolation)] none
    (m.waypoints.map (fun wp =>
      .mk "positionwaypoint" [] none
        [simpleTag "x" (.num wp.x), simpleTag "y" (.num wp.y),
         simpleTag "altitude" (.num wp.altitude),
         simpleTag "time" (.num wp.time)]))

/-- The rotation block: `Fixed` renders a `<fixedrotation>` with the
four scalar fields, `Path` renders a `<rotationpath>` with interpolation
attribute and ordered waypoints. -/
def genRotation : Rotation → XmlElem
  | .Fixed r =>
    .mk "fixedrotation" [] none
      [simpleTag "startazimuth" (.num r.startAzimuth),
       simpleTag "startelevation" (.num r.startElevation),
       simpleTag "azimuthrate" (.num r.azimuthRate),
       simpleTag "elevationrate" (.num r.elevationRate)]
  | .Path r =>
    .mk "rotationpath" [("interpolation", .str r.interpolation)] none
      (r.waypoints.map (fun wp =>
        .mk "rotationwaypoint" [] none
          [simpleTag "azimuth" (.num wp.azimuth),
           simpleTag "elevation" (.num wp.elevation),
           simpleTag "time" (.num wp.time)]))

/-- The component block of one platform (lines 273–346).  The Rust
`match` has explicit arms for `Receiver`, `Transmitter` and `Target`
and a catch-all `_ => {}` that covers both `None` and `Monostatic`
("Other components not implemented for brevity"): those render no
component element at all. -/
def genComponent (tbl : List (String × String)) : PlatformComponent → List XmlElem
  | .Receiver r =>
    [.mk "receiver"
      ([("name", .str r.name)]
       ++ optAttr "antenna" (getName tbl r.antennaId)
       ++ optAttr "timing" (getName tbl r.timingId))
      none
      ([simpleTag "window_skip" (.num r.window_skip),
        simpleTag "window_length" (.num r.window_length),
        simpleTag "prf" (.num r.prf)]
       ++ optionalTag "noise_temp" (r.noiseTemperature.map XVal.num))]
  | .Transmitter t =>
    [.mk "transmitter"
      ([("name", .str t.name), ("type", .str "continuous")]
       ++ optAttr "antenna" (getName tbl t.antennaId)
       ++ optAttr "pulse" (getName tbl t.pulseId)
       ++ optAttr "timing" (getName tbl t.timingId))
      none
      [simpleTag "prf" (.num t.prf)]]
  | .Target t =>
    [.mk "target" [("name", .str t.name)] none
      ([.mk "rcs" ([("type", .str t.rcs_type)] ++ optAttr "filename" t.rcs_filename)
          none (optionalTag "value" (t.rcs_value.map XVal.num))]
       ++ (if t.rcs_model ≠ "constant" then
             [.mk "model" [("type", .str t.rcs_model)] none
               (optionalTag "k" (t.rcs_k.map XVal.num))]
           else []))]
  | _ => []

/-- One `<platform>` element. -/
def genPlatform (tbl : List (String × String)) (p : Platform) : XmlElem :=
  .mk "platform" [("name", .str p.name)] none
    ([genMotionPath p.motionPath, genRotation p.rotation]
     ++ genComponent tbl p.component)

/-- `generate_xml_from_state` (xml_handler.rs lines 48–359), at tree
level: the `<simulation>` document element.  The XML declaration and
DOCTYPE header precede it in the rendered text and carry no model
data.  The Rust function's `Result` is an artifact of the stream
writer; on the tree it is total. -/
def generate_xml_from_state (s : ScenarioState) : XmlElem :=
  .mk "simulation" [("name", .str s.globalParameters.simulation_name)] none
    ([genParameters s.globalParameters]
     ++ s.pulses.map genPulse
     ++ s.timings.map genTiming
     ++ s.antennas.map genAntenna
     ++ s.platforms.map (genPlatform (id_to_name s)))

-- ====================================================================
--  XML parsing: `quick_xml::de::from_str::<XmlSimulation>` on the tree
-- ====================================================================

/-- First attribute with the given name (XML attribute names are unique
within an element). -/
def getAttr (e : XmlElem) (k : String) : Option XVal :=
  (e.attrs.find? (fun kv => kv.1 = k)).map (fun kv => kv.2)

/-- All child elements with the given tag, in document order (serde
`Vec` fields collect these). -/
def childrenNamed (e : XmlElem) (k : String) : List XmlElem :=
  e.children.filter (fun c => XmlElem.name c = k)

/-- First child element with the given tag (serde scalar/struct
fields). -/
def getChild (e : XmlElem) (k : String) : Option XmlElem :=
  e.children.find? (fun c => XmlElem.name c = k)

/-- A required `String` attribute (`#[serde(rename = "@k")]` on a
`String` field): absence is a missing-field error. -/
def reqAttrStr (e : XmlElem) (k : String) : Except String String :=
  match getAttr e k with
  | some (.str s) => .ok s
  | some _ => .error ("invalid type for attribute @" ++ k)
  | none => .error ("missing field @" ++ k)

/-- An optional `String` attribute (`Option<String>` field): absence
yields `none`. -/
def optAttrStr (e : XmlElem) (k : String) : Except String (Option String) :=
  match getAttr e k with
  | some (.str s) => .ok (some s)
  | some _ => .error ("invalid type for attribute @" ++ k)
  | none => .ok none

/-- A required `bool` attribute. -/
def reqAttrBool (e : XmlElem) (k : String) : Except String Bool :=
  match getAttr e k with
  | some (.bool b) => .ok b
  | some _ => .error ("invalid type for attribute @" ++ k)
  | none => .error ("missing field @" ++ k)

/-- Numeric text content of an element (an `f64`/`i64` field). -/
def elemNum (e : XmlElem) : Except String Int :=
  match XmlElem.content e with
  | some (.num x) => .ok x
  | _ => .error "invalid numeric value"

/-- A required numeric child element. -/
def reqChildNum (e : XmlElem) (k : String) : Except String Int :=
  match getChild e k with
  | some c => elemNum c
  | none => .error ("missing field " ++ k)

/-- An optional numeric child element: absence yields `none`. -/
def optChildNum (e : XmlElem) (k : String) : Except String (Option Int) :=
  match getChild e k with
  | some c => (elemNum c).map some
  | none => .ok none

/-- An optional `u64` child element (`randomseed`): a negative number
does not parse as `u64`. -/
def optChildU64 (e : XmlElem) (k : String) : Except String (Option Nat) :=
  match getChild e k with
  | some c =>
    match XmlElem.content c with
    | some (.num x) => if x < 0 then .error "invalid u64 value" else .ok (some x.toNat)
    | _ => .error "invalid u64 value"
  | none => .ok none

/-- Parse an optional child struct. -/
def parseOpt (o : Option XmlElem) (f : XmlElem → Except String α) :
    Except String (Option α) :=
  match o with
  | some e => (f e).map some
  | none => .ok none

/-- Derived deserializer for `XmlExport`. -/
def parseXmlExport (e : XmlElem) : Except String XmlExport := do
  let binary ← reqAttrBool e "binary"
  let csv ← reqAttrBool e "csv"
  let xml ← reqAttrBool e "xml"
  .ok { binary, csv, xml }

/-- Derived deserializer for `XmlParameters`. -/
def parseXmlParameters (e : XmlElem) : Except String XmlParameters := do
  let starttime ← reqChildNum e "starttime"
  let endtime ← reqChildNum e "endtime"
  let rate ← reqChildNum e "rate"
  let c ← reqChildNum e "c"
  let simSamplingRate ← optChildNum e "simSamplingRate"
  let randomseed ← optChildU64 e "randomseed"
  let adc_bits ← reqChildNum e "adc_bits"
  let oversample ← reqChildNum e "oversample"
  let exportFlags ←
    match getChild e "export" with
    | some c => parseXmlExport c
    | none => .error "missing field export"
  .ok { starttime, endtime, rate, c, simSamplingRate, randomseed,
        adc_bits, oversample, exportFlags }

/-- Derived deserializer for `XmlPulse`. -/
def parseXmlPulse (e : XmlElem) : Except String XmlPulse := do
  let name ← reqAttrStr e "name"
  let ptype ← reqAttrStr e "type"
  let filename ← optAttrStr e "filename"
  let power ← reqChildNum e "power"
  let carrier ← reqChildNum e "carrier"
  .ok { name, ptype, filename, power, carrier }

/-- Derived deserializer for `XmlNoiseEntry`. -/
def parseXmlNoiseEntry (e : XmlElem) : Except String XmlNoiseEntry := do
  let alpha ← reqChildNum e "alpha"
  let weight ← reqChildNum e "weight"
  .ok { alpha, weight }

/-- Derived deserializer for `XmlTiming`. -/
def parseXmlTiming (e : XmlElem) : Except String XmlTiming := do
  let name ← reqAttrStr e "name"
  let frequency ← reqChildNum e "frequency"
  let freq_offset ← optChildNum e "freq_offset"
  let random_freq_offset_stdev ← optChildNum e "random_freq_offset_stdev"
  let phase_offset ← optChildNum e "phase_offset"
  let random_phase_offset_stdev ← optChildNum e "random_phase_offset_stdev"
  let noise_entries ← (childrenNamed e "noise_entry").mapM parseXmlNoiseEntry
  .ok { name, frequency, freq_offset, random_freq_offset_stdev,
        phase_offset, random_phase_offset_stdev, noise_entries }

/-- Derived deserializer for `XmlAntenna`. -/
def parseXmlAntenna (e : XmlElem) : Except String XmlAntenna := do
  let name ← reqAttrStr e "name"
  let pattern ← reqAttrStr e "pattern"
  let filename ← optAttrStr e "filename"
  let efficiency ← optChildNum e "efficiency"
  let alpha ← optChildNum e "alpha"
  let beta ← optChildNum e "beta"
  let gamma ← optChildNum e "gamma"
  let azscale ← optChildNum e "azscale"
  let elscale ← optChildNum e "elscale"
  let diameter ← optChildNum e "diameter"
  .ok { name, pattern, filename, efficiency, alpha, beta, gamma,
        azscale, elscale, diameter }

/-- Derived deserializer for `XmlPositionWaypoint`. -/
def parseXmlPositionWaypoint (e : XmlElem) : Except String XmlPositionWaypoint := do
  let x ← reqChildNum e "x"
  let y ← reqChildNum e "y"
  let altitude ← reqChildNum e "altitude"
  let time ← reqChildNum e "time"
  .ok { x, y, altitude, time }

/-- Derived deserializer for `XmlMotionPath`. -/
def parseXmlMotionPath (e : XmlElem) : Except String XmlMotionPath := do
  let interpolation ← reqAttrStr e "interpolation"
  let waypoints ← (childrenNamed e "positionwaypoint").mapM parseXmlPositionWaypoint
  .ok { interpolation, waypoints }

/-- Derived deserializer for `XmlFixedRotation`. -/
def parseXmlFixedRotation (e : XmlElem) : Except String XmlFixedRotation := do
  let startazimuth ← reqChildNum e "startazimuth"
  let startelevation ← reqChildNum e "startelevation"
  let azimuthrate ← reqChildNum e "azimuthrate"
  let elevationrate ← reqChildNum e "elevationrate"
  .ok { startazimuth, startelevation, azimuthrate, elevationrate }

/-- Derived deserializer for `XmlTransmitter`: the `antenna`, `pulse`
and `timing` attributes are required. -/
def parseXmlTransmitter (e : XmlElem) : Except String XmlTransmitter := do
  let name ← reqAttrStr e "name"
  let antenna ← reqAttrStr e "antenna"
  let pulse ← reqAttrStr e "pulse"
  let timing ← reqAttrStr e "timing"
  let prf ← reqChildNum e "prf"
  .ok { name, antenna, pulse, timing, prf }

/-- Derived deserializer for `XmlReceiver`: the `antenna` and `timing`
attributes are required. -/
def parseXmlReceiver (e : XmlElem) : Except String XmlReceiver := do
  let name ← reqAttrStr e "name"
  let antenna ← reqAttrStr e "antenna"
  let timing ← reqAttrStr e "timing"
  let window_skip ← reqChildNum e "window_skip"
  let window_length ← reqChildNum e "window_length"
  let prf ← reqChildNum e "prf"
  let noise_temp ← optChildNum e "noise_temp"
  .ok { name, antenna, timing, window_skip, window_length, prf, noise_temp }

/-- Derived deserializer for `XmlRcs`. -/
def parseXmlRcs (e : XmlElem) : Except String XmlRcs := do
  let rtype ← reqAttrStr e "type"
  let filename ← optAttrStr e "filename"
  let value ← optChildNum e "value"
  .ok { rtype, filename, value }

/-- Derived deserializer for `XmlModel`. -/
def parseXmlModel (e : XmlElem) : Except String XmlModel := do
  let mtype ← reqAttrStr e "type"
  let k ← optChildNum e "k"
  .ok { mtype, k }

/-- Derived deserializer for `XmlTarget`. -/
def parseXmlTarget (e : XmlElem) : Except String XmlTarget := do
  let name ← reqAttrStr e "name"
  let rcs ←
    match getChild e "rcs" with
    | some c => parseXmlRcs c
    | none => .error "missing field rcs"
  let model ← parseOpt (getChild e "model") parseXmlModel
  .ok { name, rcs, model }

/-- Derived deserializer for `XmlPlatform`.  There is no field for
`rotationpath`, so such a child element is ignored. -/
def parseXmlPlatform (e : XmlElem) : Except String XmlPlatform := do
  let name ← reqAttrStr e "name"
  let motionpath ←
    match getChild e "motionpath" with
    | some c => parseXmlMotionPath c
    | none => .error "missing field motionpath"
  let fixedrotation ← parseOpt (getChild e "fixedrotation") parseXmlFixedRotation
  let transmitter ← parseOpt (getChild e "transmitter") parseXmlTransmitter
  let receiver ← parseOpt (getChild e "receiver") parseXmlReceiver
  let target ← parseOpt (getChild e "target") parseXmlTarget
  .ok { name, motionpath, fixedrotation, transmitter, receiver, target }

/-- `from_str::<XmlSimulation>` on the document element: the derived
deserializer for `XmlSimulation`. -/
def parseXmlSimulation (e : XmlElem) : Except String XmlSimulation := do
  let name ← reqAttrStr e "name"
  let parameters ←
    match getChild e "parameters" with
    | some c => parseXmlParameters c
    | none => .error "missing field parameters"
  let pulses ← (childrenNamed e "pulse").mapM parseXmlPulse
  let timings ← (childrenNamed e "timing").mapM parseXmlTiming
  let antennas ← (childrenNamed e "antenna").mapM parseXmlAntenna
  let platforms ← (childrenNamed e "platform").mapM parseXmlPlatform
  .ok { name, parameters, pulses, timings, antennas, platforms }

-- ====================================================================
--  Transformation to the Scenario Model (`transform_xml_to_state`)
-- ====================================================================

/-- `Uuid::new_v4()` draws from an ambient random source; the `fresh`
supply makes that source an explicit input, the `Nat` argument counting
the calls made so far during one conversion. -/
def transformNoiseEntries (fresh : Nat → String) :
    Nat → List XmlNoiseEntry → List NoiseEntry × Nat
  | n, [] => ([], n)
  | n, ne :: rest =>
    let entry : NoiseEntry := { id := fresh n, alpha := ne.alpha, weight := ne.weight }
    let (others, n') := transformNoiseEntries fresh (n + 1) rest
    (entry :: others, n')

/-- The pulse loop of `transform_xml_to_state`: fresh identifier,
`name→id` table insertion, `"continuous"` normalized to `"cw"`. -/
def transformPulses (fresh : Nat → String) :
    Nat → List (String × String) → List XmlPulse →
    List Pulse × Nat × List (String × String)
  | n, tbl, [] => ([], n, tbl)
  | n, tbl, p :: ps =>
    let id := fresh n
    let pulse : Pulse :=
      { id := id, type := "Pulse", name := p.name,
        pulseType := if p.ptype = "continuous" then "cw" else p.ptype,
        power := p.power, carrier := p.carrier, filename := p.filename }
    let (rest, n', tbl') := transformPulses fresh (n + 1) (tbl ++ [(p.name, id)]) ps
    (pulse :: rest, n', tbl')

/-- The timing loop of `transform_xml_to_state`: the timing draws one
fresh identifier, then each noise entry draws one. -/
def transformTimings (fresh : Nat → String) :
    Nat → List (String × String) → List XmlTiming →
    List Timing × Nat × List (String × String)
  | n, tbl, [] => ([], n, tbl)
  | n, tbl, t :: ts =>
    let id := fresh n
    let (entries, n1) := transformNoiseEntries fresh (n + 1) t.noise_entries
    let timing : Timing :=
      { id := id, type := "Timing", name := t.name,
        frequency := t.frequency, freqOffset := t.freq_offset,
        randomFreqOffsetStdev := t.random_freq_offset_stdev,
        phaseOffset := t.phase_offset,
        randomPhaseOffsetStdev := t.random_phase_offset_stdev,
        noiseEntries := entries }
    let (rest, n', tbl') := transformTimings fresh n1 (tbl ++ [(t.name, id)]) ts
    (timing :: rest, n', tbl')

/-- The antenna loop of `transform_xml_to_state`. -/
def transformAntennas (fresh : Nat → String) :
    Nat → List (String × String) → List XmlAntenna →
    List Antenna × Nat × List (String × String)
  | n, tbl, [] => ([], n, tbl)
  | n, tbl, a :: as_ =>
    let id := fresh n
    let antenna : Antenna :=
      { id := id, type := "Antenna", name := a.name, pattern := a.pattern,
        filename := a.filename, efficiency := a.efficiency,
        alpha := a.alpha, beta := a.beta, gamma := a.gamma,
        azscale := a.azscale, elscale := a.elscale, diameter := a.diameter }
    let (rest, n', tbl') := transformAntennas fresh (n + 1) (tbl ++ [(a.name, id)]) as_
    (antenna :: rest, n', tbl')

/-- The component construction of `transform_xml_to_state` (lines
624–659): an if-else chain transmitter / receiver / target / `None`;
asset names resolve through the `name→id` table, a miss yielding
`none`; a transmitter's `radarType` is always `"pulsed"`, a receiver's
two path flags always `false`, an absent `<model>` yields
`rcs_model = "constant"` and `rcs_k = none`. -/
def transformComponent (tbl : List (String × String)) (p : XmlPlatform) :
    PlatformComponent :=
  match p.transmitter with
  | some t =>
    .Transmitter
      { name := t.name, radarType := "pulsed", prf := t.prf,
        antennaId := hmLookup tbl t.antenna,
        pulseId := hmLookup tbl t.pulse,
        timingId := hmLookup tbl t.timing }
  | none =>
    match p.receiver with
    | some r =>
      .Receiver
        { name := r.name, window_skip := r.window_skip,
          window_length := r.window_length, prf := r.prf,
          antennaId := hmLookup tbl r.antenna,
          timingId := hmLookup tbl r.timing,
          noiseTemperature := r.noise_temp,
          noDirectPaths := false, noPropagationLoss := false }
    | none =>
      match p.target with
      | some t =>
        .Target
          { name := t.name, rcs_type := t.rcs.rtype,
            rcs_value := t.rcs.value, rcs_filename := t.rcs.filename,
            rcs_model := match t.model with
                         | some m => m.mtype
                         | none => "constant",
            rcs_k := t.model.bind XmlModel.k }
      | none => .None

/-- The rotation construction of `transform_xml_to_state` (lines
680–697): a present `fixedrotation` maps to `Fixed` with its four
values, absence maps to `Fixed` with all four fields zero. -/
def transformRotation : Option XmlFixedRotation → Rotation
  | some r =>
    .Fixed { startAzimuth := r.startazimuth, startElevation := r.startelevation,
             azimuthRate := r.azimuthrate, elevationRate := r.elevationrate }
  | none =>
    .Fixed { startAzimuth := 0, startElevation := 0,
             azimuthRate := 0, elevationRate := 0 }

/-- The waypoint construction inside the platform loop. -/
def transformWaypoints (fresh : Nat → String) :
    Nat → List XmlPositionWaypoint → List PositionWaypoint × Nat
  | n, [] => ([], n)
  | n, wp :: rest =>
    let w : PositionWaypoint :=
      { id := fresh n, x := wp.x, y := wp.y,
        altitude := wp.altitude, time := wp.time }
    let (others, n') := transformWaypoints fresh (n + 1) rest
    (w :: others, n')

/-- The platform loop of `transform_xml_to_state`. -/
def transformPlatforms (fresh : Nat → String) (tbl : List (String × String)) :
    Nat → List XmlPlatform → List Platform × Nat
  | n, [] => ([], n)
  | n, p :: ps =>
    let id := fresh n
    let (wps, n1) := transformWaypoints fresh (n + 1) p.motionpath.waypoints
    let platform : Platform :=
      { id := id, type := "Platform", name := p.name,
        motionPath := { interpolation := p.motionpath.interpolation, waypoints := wps },
        rotation := transformRotation p.fixedrotation,
        component := transformComponent tbl p }
    let (rest, n') := transformPlatforms fresh tbl n1 ps
    (platform :: rest, n')

/-- `transform_xml_to_state` (xml_handler.rs lines 544–727), with the
identifier source as an explicit `fresh` supply. -/
def transform_xml_to_state (fresh : Nat → String) (xml : XmlSimulation) :
    ScenarioState :=
  let (pulses, n1, tbl1) := transformPulses fresh 0 [] xml.pulses
  let (timings, n2, tbl2) := transformTimings fresh n1 tbl1 xml.timings
  let (antennas, n3, tbl3) := transformAntennas fresh n2 tbl2 xml.antennas
  let (platforms, _) := transformPlatforms fresh tbl3 n3 xml.platforms
  { globalParameters :=
      { id := "global-parameters", type := "GlobalParameters",
        simulation_name := xml.name,
        start := xml.parameters.starttime,
        endT := xml.parameters.endtime,
        rate := xml.parameters.rate,
        simSamplingRate := xml.parameters.simSamplingRate,
        c := xml.parameters.c,
        random_seed := xml.parameters.randomseed.map (fun n => (n : Int)),
        adc_bits := xml.parameters.adc_bits,
        oversample := xml.parameters.oversample,
        exportOptions :=
          { xml := xml.parameters.exportFlags.xml,
            csv := xml.parameters.exportFlags.csv,
            binary := xml.parameters.exportFlags.binary } },
    pulses := pulses, timings := timings, antennas := antennas,
    platforms := platforms }

/-- `parse_xml_to_state` (lines 729–733) up to its final JSON
re-encoding (out of scope here): parse the document, then transform.
A parse failure fails the whole conversion; no partial model is
produced. -/
def parse_xml_to_state (fresh : Nat → String) (doc : XmlElem) :
    Except String ScenarioState :=
  (parseXmlSimulation doc).map (transform_xml_to_state fresh)

-- ====================================================================
--  Equality up to synthetic identifiers
-- ====================================================================

/-- Resolve a platform reference field of a state to the display name
of the referenced asset (through that state's identifier→name table). -/
def resolveRef (s : ScenarioState) (r : Option String) : Option String :=
  r.bind (hmLookup (id_to_name s))

/-- Pointwise matching of two lists. -/
def listMatch (f : α → β → Bool) : List α → List β → Bool
  | [], [] => true
  | a :: as_, b :: bs => f a b && listMatch f as_ bs
  | _, _ => false

/-- Global parameters agree on every field except the synthetic `id`. -/
def gpMatch (a b : GlobalParameters) : Bool :=
  a.type == b.type && a.simulation_name == b.simulation_name
  && a.start == b.start && a.endT == b.endT && a.rate == b.rate
  && a.simSamplingRate == b.simSamplingRate && a.c == b.c
  && a.random_seed == b.random_seed && a.adc_bits == b.adc_bits
  && a.oversample == b.oversample && a.exportOptions == b.exportOptions

/-- Pulses agree on every field except the synthetic `id`. -/
def pulseMatch (a b : Pulse) : Bool :=
  a.type == b.type && a.name == b.name && a.pulseType == b.pulseType
  && a.power == b.power && a.carrier == b.carrier && a.filename == b.filename

/-- Timings agree on every field except the synthetic identifiers. -/
def timingMatch (a b : Timing) : Bool :=
  a.type == b.type && a.name == b.name && a.frequency == b.frequency
  && a.freqOffset == b.freqOffset
  && a.randomFreqOffsetStdev == b.randomFreqOffsetStdev
  && a.phaseOffset == b.phaseOffset
  && a.randomPhaseOffsetStdev == b.randomPhaseOffsetStdev
  && listMatch (fun x y : NoiseEntry =>
       x.alpha == y.alpha && x.weight == y.weight) a.noiseEntries b.noiseEntries

/-- Antennas agree on every field except the synthetic `id`. -/
def antennaMatch (a b : Antenna) : Bool :=
  a.type == b.type && a.name == b.name && a.pattern == b.pattern
  && a.filename == b.filename && a.efficiency == b.efficiency
  && a.alpha == b.alpha && a.beta == b.beta && a.gamma == b.gamma
  && a.azscale == b.azscale && a.elscale == b.elscale
  && a.diameter == b.diameter

/-- Motion paths agree on every field except waypoint identifiers. -/
def motionMatch (a b : MotionPath) : Bool :=
  a.interpolation == b.interpolation
  && listMatch (fun x y : PositionWaypoint =>
       x.x == y.x && x.y == y.y && x.altitude == y.altitude && x.time == y.time)
     a.waypoints b.waypoints

/-- Rotations agree up to waypoint identifiers. -/
def rotationMatch : Rotation → Rotation → Bool
  | .Fixed r, .Fixed r' => r == r'
  | .Path p, .Path p' =>
    p.interpolation == p'.interpolation
    && listMatch (fun x y : RotationWaypoint =>
         x.azimuth == y.azimuth && x.elevation == y.elevation && x.time == y.time)
       p.waypoints p'.waypoints
  | _, _ => false

/-- Reference fields agree when they resolve, in their respective
states, to the same asset name (or both miss). -/
def refMatch (sa sb : ScenarioState) (ra rb : Option String) : Bool :=
  resolveRef sa ra == resolveRef sb rb

/-- Components agree on variant and every scalar field, with reference
fields compared by resolved asset name. -/
def componentMatch (sa sb : ScenarioState) :
    PlatformComponent → PlatformComponent → Bool
  | .None, .None => true
  | .Monostatic m, .Monostatic m' =>
    m.name == m'.name && m.radarType == m'.radarType
    && m.window_skip == m'.window_skip && m.window_length == m'.window_length
    && m.prf == m'.prf && m.noiseTemperature == m'.noiseTemperature
    && m.noDirectPaths == m'.noDirectPaths
    && m.noPropagationLoss == m'.noPropagationLoss
    && refMatch sa sb m.antennaId m'.antennaId
    && refMatch sa sb m.pulseId m'.pulseId
    && refMatch sa sb m.timingId m'.timingId
  | .Transmitter t, .Transmitter t' =>
    t.name == t'.name && t.radarType == t'.radarType && t.prf == t'.prf
    && refMatch sa sb t.antennaId t'.antennaId
    && refMatch sa sb t.pulseId t'.pulseId
    && refMatch sa sb t.timingId t'.timingId
  | .Receiver r, .Receiver r' =>
    r.name == r'.name && r.window_skip == r'.window_skip
    && r.window_length == r'.window_length && r.prf == r'.prf
    && r.noiseTemperature == r'.noiseTemperature
    && r.noDirectPaths == r'.noDirectPaths
    && r.noPropagationLoss == r'.noPropagationLoss
    && refMatch sa sb r.antennaId r'.antennaId
    && refMatch sa sb r.timingId r'.timingId
  | .Target t, .Target t' =>
    t.name == t'.name && t.rcs_type == t'.rcs_type
    && t.rcs_value == t'.rcs_value && t.rcs_filename == t'.rcs_filename
    && t.rcs_model == t'.rcs_model && t.rcs_k == t'.rcs_k
  | _, _ => false

/-- Platforms agree on every field except synthetic identifiers, with
reference fields compared by resolved asset name. -/
def platformMatch (sa sb : ScenarioState) (a b : Platform) : Bool :=
  a.type == b.type && a.name == b.name
  && motionMatch a.motionPath b.motionPath
  && rotationMatch a.rotation b.rotation
  && componentMatch sa sb a.component b.component

/-- Two scenario states agree on every field value, except that
synthetic identifiers may differ as long as each reference field
resolves, in its own state, to an asset with the same name. -/
def matchesUpToIds (sa sb : ScenarioState) : Bool :=
  gpMatch sa.globalParameters sb.globalParameters
  && listMatch pulseMatch sa.pulses sb.pulses
  && listMatch timingMatch sa.timings sb.timings
  && listMatch antennaMatch sa.antennas sb.antennas
  && listMatch (platformMatch sa sb) sa.platforms sb.platforms

-- ====================================================================
--  Closed forms for the transformation loops
-- ====================================================================

/-- The pulse produced for one `XmlPulse` when the loop's counter
stands at `i`. -/
def pulseAt (fresh : Nat → String) (i : Nat) (p : XmlPulse) : Pulse :=
  { id := fresh i, type := "Pulse", name := p.name,
    pulseType := if p.ptype = "continuous" then "cw" else p.ptype,
    power := p.power, carrier := p.carrier, filename := p.filename }

/-- The noise entry produced at counter `i`. -/
def noiseAt (fresh : Nat → String) (i : Nat) (ne : XmlNoiseEntry) : NoiseEntry :=
  { id := fresh i, alpha := ne.alpha, weight := ne.weight }

/-- The timing produced at counter `i` (its noise entries consume the
counters `i+1, ...`). -/
def timingAt (fresh : Nat → String) (i : Nat) (t : XmlTiming) : Timing :=
  { id := fresh i, type := "Timing", name := t.name,
    frequency := t.frequency, freqOffset := t.freq_offset,
    randomFreqOffsetStdev := t.random_freq_offset_stdev,
    phaseOffset := t.phase_offset,
    randomPhaseOffsetStdev := t.random_phase_offset_stdev,
    noiseEntries := (transformNoiseEntries fresh (i + 1) t.noise_entries).1 }

/-- The antenna produced at counter `i`. -/
def antennaAt (fresh : Nat → String) (i : Nat) (a : XmlAntenna) : Antenna :=
  { id := fresh i, type := "Antenna", name := a.name, pattern := a.pattern,
    filename := a.filename, efficiency := a.efficiency,
    alpha := a.alpha, beta := a.beta, gamma := a.gamma,
    azscale := a.azscale, elscale := a.elscale, diameter := a.diameter }

/-- The waypoint produced at counter `i`. -/
def waypointAt (fresh : Nat → String) (i : Nat) (wp : XmlPositionWaypoint) :
    PositionWaypoint :=
  { id := fresh i, x := wp.x, y := wp.y, altitude := wp.altitude, time := wp.time }

/-- The platform produced at counter `i` (its waypoints consume the
counters `i+1, ...`). -/
def platformAt (fresh : Nat → String) (tbl : List (String × String))
    (i : Nat) (p : XmlPlatform) : Platform :=
  { id := fresh i, type := "Platform", name := p.name,
    motionPath := { interpolation := p.motionpath.interpolation,
                    waypoints := (transformWaypoints fresh (i + 1) p.motionpath.waypoints).1 },
    rotation := transformRotation p.fixedrotation,
    component := transformComponent tbl p }

/-- Counter values at which the timings of a list draw their own
identifiers, starting from `n`. -/
def timingIdx (n : Nat) : List XmlTiming → List Nat
  | [] => []
  | t :: ts => n :: timingIdx (n + 1 + t.noise_entries.length) ts

/-- Counter value after transforming a timing list started at `n`. -/
def timingEnd (n : Nat) : List XmlTiming → Nat
  | [] => n
  | t :: ts => timingEnd (n + 1 + t.noise_entries.length) ts

/-- Counter values at which the platforms of a list draw their own
identifiers, starting from `n`. -/
def platIdx (n : Nat) : List XmlPlatform → List Nat
  | [] => []
  | p :: ps => n :: platIdx (n + 1 + p.motionpath.waypoints.length) ps

/-- Counter value after transforming a platform list started at `n`. -/
def platEnd (n : Nat) : List XmlPlatform → Nat
  | [] => n
  | p :: ps => platEnd (n + 1 + p.motionpath.waypoints.length) ps

/-- The display names of a document's assets in table-insertion order
(pulses, then timings, then antennas). -/
def assetNames (xml : XmlSimulation) : List String :=
  xml.pulses.map XmlPulse.name ++ xml.timings.map XmlTiming.name
  ++ xml.antennas.map XmlAntenna.name

/-- The counter values at which a document's assets draw their
identifiers. -/
def assetIdx (xml : XmlSimulation) : List Nat :=
  List.range' 0 xml.pulses.length
  ++ timingIdx xml.pulses.length xml.timings
  ++ List.range' (timingEnd xml.pulses.length xml.timings) xml.antennas.length

/-- The name→identifier table as it stands after the three asset loops
of `transform_xml_to_state`. -/
def transformTbl (fresh : Nat → String) (xml : XmlSimulation) :
    List (String × String) :=
  (assetNames xml).zip ((assetIdx xml).map fresh)

-- ====================================================================
--  The XML image of a model value (used for the round-trip claim)
-- ====================================================================

/-- The `XmlPulse` recovered when the parser reads a serialized
pulse. -/
def xmlPulseOf (p : Pulse) : XmlPulse :=
  { name := p.name,
    ptype := if p.pulseType = "cw" ∨ p.pulseType = "continuous"
             then "continuous" else "file",
    filename := p.filename, power := p.power, carrier := p.carrier }

/-- The `XmlTiming` recovered when the parser reads a serialized
timing. -/
def xmlTimingOf (t : Timing) : XmlTiming :=
  { name := t.name, frequency := t.frequency, freq_offset := t.freqOffset,
    random_freq_offset_stdev := t.randomFreqOffsetStdev,
    phase_offset := t.phaseOffset,
    random_phase_offset_stdev := t.randomPhaseOffsetStdev,
    noise_entries := t.noiseEntries.map (fun ne =>
      { alpha := ne.alpha, weight := ne.weight }) }

/-- The `XmlAntenna` recovered when the parser reads a serialized
antenna: pattern-specific parameters survive only under their own
pattern, since the serializer emits them only there. -/
def xmlAntennaOf (a : Antenna) : XmlAntenna :=
  { name := a.name, pattern := a.pattern, filename := a.filename,
    efficiency := a.efficiency,
    alpha := if a.pattern = "sinc" then a.alpha else none,
    beta := if a.pattern = "sinc" then a.beta else none,
    gamma := if a.pattern = "sinc" then a.gamma else none,
    azscale := if a.pattern = "gaussian" then a.azscale else none,
    elscale := if a.pattern = "gaussian" then a.elscale else none,
    diameter := if ¬(a.pattern = "sinc") ∧ ¬(a.pattern = "gaussian")
                   ∧ (a.pattern = "squarehorn" ∨ a.pattern = "parabolic")
                then a.diameter else none }

/-- The `XmlParameters` recovered when the parser reads serialized
global parameters. -/
def xmlParametersOf (g : GlobalParameters) : XmlParameters :=
  { starttime := g.start, endtime := g.endT, rate := g.rate, c := g.c,
    simSamplingRate := g.simSamplingRate,
    randomseed := g.random_seed.map f64AsU64,
    adc_bits := g.adc_bits, oversample := g.oversample,
    exportFlags := { binary := g.exportOptions.binary,
                     csv := g.exportOptions.csv,
                     xml := g.exportOptions.xml } }

/-- The `XmlMotionPath` recovered from a serialized motion path. -/
def xmlMotionOf (m : MotionPath) : XmlMotionPath :=
  { interpolation := m.interpolation,
    waypoints := m.waypoints.map (fun wp =>
      { x := wp.x, y := wp.y, altitude := wp.altitude, time := wp.time }) }

/-- The optional `XmlFixedRotation` recovered from a serialized
rotation: a `Path` rotation leaves no `fixedrotation` element. -/
def xmlFixedOf : Rotation → Option XmlFixedRotation
  | .Fixed r => some { startazimuth := r.startAzimuth,
                       startelevation := r.startElevation,
                       azimuthrate := r.azimuthRate,
                       elevationrate := r.elevationRate }
  | .Path _ => none

/-- The `XmlTransmitter` recovered from a serialized transmitter whose
references all resolve. -/
def xmlTransmitterOf (tbl : List (String × String)) (t : Transmitter) :
    XmlTransmitter :=
  { name := t.name, antenna := (getName tbl t.antennaId).getD "",
    pulse := (getName tbl t.pulseId).getD "",
    timing := (getName tbl t.timingId).getD "", prf := t.prf }

/-- The `XmlReceiver` recovered from a serialized receiver whose
references all resolve. -/
def xmlReceiverOf (tbl : List (String × String)) (r : Receiver) :
    XmlReceiver :=
  { name := r.name, antenna := (getName tbl r.antennaId).getD "",
    timing := (getName tbl r.timingId).getD "",
    window_skip := r.window_skip, window_length := r.window_length,
    prf := r.prf, noise_temp := r.noiseTemperature }

/-- The `XmlTarget` recovered from a serialized target. -/
def xmlTargetOf (t : Target) : XmlTarget :=
  { name := t.name,
    rcs := { rtype := t.rcs_type, filename := t.rcs_filename,
             value := t.rcs_value },
    model := if t.rcs_model ≠ "constant" then
               some { mtype := t.rcs_model, k := t.rcs_k }
             else none }

/-- The `XmlPlatform` recovered from a serialized platform. -/
def xmlPlatformOf (tbl : List (String × String)) (p : Platform) :
    XmlPlatform :=
  { name := p.name, motionpath := xmlMotionOf p.motionPath,
    fixedrotation := xmlFixedOf p.rotation,
    transmitter := match p.component with
                   | .Transmitter t => some (xmlTransmitterOf tbl t)
                   | _ => none,
    receiver := match p.component with
                | .Receiver r => some (xmlReceiverOf tbl r)
                | _ => none,
    target := match p.component with
              | .Target t => some (xmlTargetOf t)
              | _ => none }

/-- The `XmlSimulation` recovered when the parser reads a serialized
state. -/
def xmlOf (s : ScenarioState) : XmlSimulation :=
  { name := s.globalParameters.simulation_name,
    parameters := xmlParametersOf s.globalParameters,
    pulses := s.pulses.map xmlPulseOf,
    timings := s.timings.map xmlTimingOf,
    antennas := s.antennas.map xmlAntennaOf,
    platforms := s.platforms.map (xmlPlatformOf (id_to_name s)) }

-- ====================================================================
--  Round-trippability conditions
-- ====================================================================

/-- A pulse survives the round trip on every field: its `type` tag is
canonical and its kind is one of the two the format distinguishes. -/
def pulseOk (p : Pulse) : Bool :=
  p.type == "Pulse" && (p.pulseType == "cw" || p.pulseType == "file")

/-- A timing survives the round trip when its `type` tag is canonical. -/
def timingOk (t : Timing) : Bool := t.type == "Timing"

/-- An antenna survives the round trip when its `type` tag is canonical
and it carries no parameter its pattern does not define. -/
def antennaOk (a : Antenna) : Bool :=
  a.type == "Antenna"
  && (a.pattern == "sinc" || a.alpha == none && a.beta == none && a.gamma == none)
  && (a.pattern == "gaussian" || a.azscale == none && a.elscale == none)
  && (a.pattern == "squarehorn" || a.pattern == "parabolic"
      || a.diameter == none)

/-- A component survives the round trip: `Monostatic` is not
serialized at all; a transmitter must carry the only radar type the
codec produces and all its references present and resolved (their
attributes are required on re-parse); likewise a receiver, whose two
path flags the deserializer hard-codes to `false`; a target's `k` is
dropped when the model block is not emitted. -/
def componentOk (tbl : List (String × String)) : PlatformComponent → Bool
  | .None => true
  | .Monostatic _ => false
  | .Transmitter t =>
    t.radarType == "pulsed" && (getName tbl t.antennaId).isSome
    && (getName tbl t.pulseId).isSome && (getName tbl t.timingId).isSome
  | .Receiver r =>
    !r.noDirectPaths && !r.noPropagationLoss
    && (getName tbl r.antennaId).isSome && (getName tbl r.timingId).isSome
  | .Target t => t.rcs_model != "constant" || t.rcs_k == none

/-- Only `Fixed` rotations survive (a `rotationpath` element is not
parsed). -/
def rotationOk : Rotation → Bool
  | .Fixed _ => true
  | .Path _ => false

/-- A platform survives the round trip. -/
def platformOk (tbl : List (String × String)) (p : Platform) : Bool :=
  p.type == "Platform" && rotationOk p.rotation && componentOk tbl p.component

/-- Global parameters survive the round trip: a present random seed
must already be a representable non-negative integer (it is emitted
through the saturating `f64 as u64` cast). -/
def gpOk (g : GlobalParameters) : Bool :=
  g.type == "GlobalParameters"
  && (match g.random_seed with
      | none => true
      | some x => decide (0 ≤ x) && decide (x < 2 ^ 64))

/-- One full round trip model→XML→model, with the given identifier
supply for the deserializer: `true` when the re-parsed model matches
the original up to synthetic identifiers. -/
def roundTrip (fresh : Nat → String) (s : ScenarioState) : Bool :=
  match parseXmlSimulation (generate_xml_from_state s) with
  | .ok x => matchesUpToIds s (transform_xml_to_state fresh x)
  | .error _ => false

-- ====================================================================
--  Auxiliary observation functions
-- ====================================================================

/-- Whether an element carries an attribute with the given name. -/
def hasAttr (e : XmlElem) (k : String) : Bool := (getAttr e k).isSome

/-- Number of child elements with the given tag. -/
def countNamed (e : XmlElem) (k : String) : Nat := (childrenNamed e k).length

/-- The component elements among a platform element's children. -/
def componentElems (e : XmlElem) : List XmlElem :=
  (XmlElem.children e).filter (fun c =>
    (XmlElem.name c == "receiver") || (XmlElem.name c == "transmitter")
    || (XmlElem.name c == "target") || (XmlElem.name c == "monostatic"))

-- ====================================================================
--  Concrete instances for witnesses and counterexamples
-- ====================================================================

/-- Global parameters whose optional fields are all absent. -/
def nGP : GlobalParameters where
  id := "global-parameters"
  type := "GlobalParameters"
  simulation_name := "sim"
  start := 0
  endT := 10
  rate := 1000
  simSamplingRate := none
  c := 299792458
  random_seed := none
  adc_bits := 12
  oversample := 1
  exportOptions := { xml := false, csv := false, binary := true }

/-- Global parameters with a negative random seed present. -/
def wGPneg : GlobalParameters :=
  { nGP with simSamplingRate := some 3, random_seed := some (-5) }

/-- Global parameters with the extended sampling rate absent but the
random seed present (one optional field absent, a sibling present). -/
def mixGP : GlobalParameters := { nGP with random_seed := some 7 }

/-- A pulse with no filename. -/
def nPulse : Pulse where
  id := "p-id"
  type := "Pulse"
  name := "P1"
  pulseType := "file"
  power := 10
  carrier := 1000000000
  filename := none

/-- A timing with no optional fields and no noise entries. -/
def nTiming : Timing where
  id := "t-id"
  type := "Timing"
  name := "TM1"
  frequency := 10
  freqOffset := none
  randomFreqOffsetStdev := none
  phaseOffset := none
  randomPhaseOffsetStdev := none
  noiseEntries := []

/-- An isotropic antenna with no optional fields. -/
def nAntenna : Antenna where
  id := "a-id"
  type := "Antenna"
  name := "AN1"
  pattern := "isotropic"
  filename := none
  efficiency := none
  alpha := none
  beta := none
  gamma := none
  azscale := none
  elscale := none
  diameter := none

/-- A receiver with no references and no optional fields. -/
def nReceiver : Receiver where
  name := "rx"
  window_skip := 1
  window_length := 2
  prf := 3
  antennaId := none
  timingId := none
  noiseTemperature := none
  noDirectPaths := false
  noPropagationLoss := false

/-- A transmitter with no references. -/
def nTransmitter : Transmitter where
  name := "tx"
  radarType := "pulsed"
  prf := 100
  antennaId := none
  pulseId := none
  timingId := none

/-- A target with no optional fields and the default constant model. -/
def nTarget : Target where
  name := "tg"
  rcs_type := "isotropic"
  rcs_value := none
  rcs_filename := none
  rcs_model := "constant"
  rcs_k := none

/-- A fully populated monostatic component. -/
def exMono : Monostatic where
  name := "mono"
  radarType := "pulsed"
  window_skip := 1
  window_length := 2
  prf := 3
  antennaId := some "a-id"
  pulseId := some "p-id"
  timingId := some "t-id"
  noiseTemperature := some 290
  noDirectPaths := false
  noPropagationLoss := false

/-- A zeroed fixed rotation. -/
def zeroFixed : FixedRotation where
  startAzimuth := 0
  startElevation := 0
  azimuthRate := 0
  elevationRate := 0

/-- A platform carrying a monostatic component. -/
def monoPlat : Platform where
  id := "pl-id"
  type := "Platform"
  name := "plat"
  motionPath := { interpolation := "static", waypoints := [] }
  rotation := .Fixed zeroFixed
  component := .Monostatic exMono

/-- A state containing the monostatic platform and the assets it
references, used to exercise component rendering. -/
def monoState : ScenarioState where
  globalParameters := nGP
  pulses := [nPulse]
  timings := [nTiming]
  antennas := [nAntenna]
  platforms := [monoPlat]

/-- Two distinct assets sharing the identifier `"X"`: a pulse named
`"TX1"` and an antenna named `"TX2"`. -/
def c6state : ScenarioState where
  globalParameters := nGP
  pulses := [{ nPulse with id := "X", name := "TX1" }]
  timings := []
  antennas := [{ nAntenna with id := "X", name := "TX2" }]
  platforms := []

/-- A receiver whose antenna reference is the shared identifier. -/
def c6rec : Receiver := { nReceiver with antennaId := some "X" }

/-- A platform carrying a receiver component with no references. -/
def recPlat : Platform := { monoPlat with component := .Receiver nReceiver }

/-- A state with a unique asset identifier `"X"` on the pulse named
`"TX1"`. -/
def c6ustate : ScenarioState where
  globalParameters := nGP
  pulses := [{ nPulse with id := "X", name := "TX1" }]
  timings := []
  antennas := [nAntenna]
  platforms := []

/-- A receiver referencing the identifier `"Z"`, absent from every
asset list of `c6ustate`. -/
def c6recZ : Receiver := { nReceiver with antennaId := some "Z" }

/-- A document whose only flaw, relative to the data model, is a
transmitter element with no `antenna` attribute (the data model's
`Transmitter.antennaId` is optional). -/
def c2doc : XmlElem :=
  .mk "simulation" [("name", .str "s")] none
    [genParameters nGP,
     .mk "platform" [("name", .str "p")] none
       [.mk "motionpath" [("interpolation", .str "static")] none [],
        .mk "transmitter"
          [("name", .str "t"), ("pulse", .str "P"), ("timing", .str "T")]
          none [simpleTag "prf" (.num 1)]]]

/-- A parsed document containing one pulse. -/
def c3xml : XmlSimulation where
  name := "s"
  parameters :=
    { starttime := 0, endtime := 1, rate := 2, c := 3,
      simSamplingRate := none, randomseed := none, adc_bits := 8,
      oversample := 1, exportFlags := { binary := true, csv := false, xml := false } }
  pulses := [{ name := "P1", ptype := "file", filename := none, power := 1, carrier := 2 }]
  timings := []
  antennas := []
  platforms := []

/-- A state whose only platform carries a rotation path.  All its
reference fields (there are none) trivially resolve. -/
def rotPathState : ScenarioState where
  globalParameters := nGP
  pulses := []
  timings := []
  antennas := []
  platforms :=
    [{ id := "pl", type := "Platform", name := "plat",
       motionPath := { interpolation := "static", waypoints := [] },
       rotation := .Path { interpolation := "linear",
                           waypoints := [{ id := "rw", azimuth := 1,
                                           elevation := 2, time := 3 }] },
       component := .None }]

/-- A timing with one noise entry and a present frequency offset. -/
def wTiming : Timing :=
  { nTiming with
      id := "T-ID"
      name := "TM1"
      freqOffset := some 1
      noiseEntries := [{ id := "N", alpha := 1, weight := 2 }] }

/-- A sinc antenna with some pattern parameters present. -/
def wAntenna : Antenna :=
  { nAntenna with
      id := "A-ID"
      name := "TX1"
      pattern := "sinc"
      alpha := some 2
      gamma := some 3
      efficiency := some 1 }

/-- A transmitter whose three references resolve in `wState`. -/
def wTransmitter : Transmitter where
  name := "tx"
  radarType := "pulsed"
  prf := 100
  antennaId := some "A-ID"
  pulseId := some "P-ID"
  timingId := some "T-ID"

/-- A receiver whose two references resolve in `wState`. -/
def wReceiver : Receiver where
  name := "rx"
  window_skip := 1
  window_length := 2
  prf := 3
  antennaId := some "A-ID"
  timingId := some "T-ID"
  noiseTemperature := some 290
  noDirectPaths := false
  noPropagationLoss := false

/-- A target with a non-constant fluctuation model. -/
def wTarget : Target where
  name := "tg"
  rcs_type := "isotropic"
  rcs_value := some 5
  rcs_filename := none
  rcs_model := "chisquare"
  rcs_k := some 4

/-- A platform with a motion waypoint, a nonzero fixed rotation and
the transmitter component. -/
def wPlat1 : Platform where
  id := "PL1"
  type := "Platform"
  name := "plat1"
  motionPath :=
    { interpolation := "linear"
      waypoints := [{ id := "W", x := 1, y := 2, altitude := 3, time := 0 }] }
  rotation := .Fixed { startAzimuth := 1, startElevation := 2, azimuthRate := 3, elevationRate := 4 }
  component := .Transmitter wTransmitter

/-- The receiver platform of `wState`. -/
def wPlat2 : Platform :=
  { monoPlat with id := "PL2", name := "plat2", component := .Receiver wReceiver }

/-- The target platform of `wState`. -/
def wPlat3 : Platform :=
  { monoPlat with id := "PL3", name := "plat3", component := .Target wTarget }

/-- The component-less platform of `wState`. -/
def wPlat4 : Platform :=
  { monoPlat with id := "PL4", name := "plat4", component := .None }

/-- A round-trippable state exercising every surviving component
variant, asset kind and optional field. -/
def wState : ScenarioState where
  globalParameters :=
    { nGP with simSamplingRate := some 5, random_seed := some 42 }
  pulses := [{ nPulse with id := "P-ID", name := "P1", pulseType := "cw" }]
  timings := [wTiming]
  antennas := [wAntenna]
  platforms := [wPlat1, wPlat2, wPlat3, wPlat4]

/-- A constant identifier supply (one possible random draw). -/
def frA : Nat → String := fun _ => "a"

/-- A different constant identifier supply (another possible draw). -/
def frB : Nat → String := fun _ => "b"

/-- An injective identifier supply. -/
def frI : Nat → String := fun n => String.mk (List.replicate n 'a')

/-- A second injective identifier supply, disjoint from `frI` except
at the empty string. -/
def frJ : Nat → String := fun n => String.mk (List.replicate n 'b')

-- ====================================================================
--  Basic lemmas about the embedding
-- ====================================================================

@[simp] theorem XmlElem.name_mk (n : String) (a : List (String × XVal))
    (c : Option XVal) (ch : List XmlElem) : XmlElem.name (.mk n a c ch) = n := rfl

@[simp] theorem XmlElem.attrs_mk (n : String) (a : List (String × XVal))
    (c : Option XVal) (ch : List XmlElem) : XmlElem.attrs (.mk n a c ch) = a := rfl

@[simp] theorem XmlElem.content_mk (n : String) (a : List (String × XVal))
    (c : Option XVal) (ch : List XmlElem) : XmlElem.content (.mk n a c ch) = c := rfl

@[simp] theorem XmlElem.children_mk (n : String) (a : List (String × XVal))
    (c : Option XVal) (ch : List XmlElem) : XmlElem.children (.mk n a c ch) = ch := rfl

@[simp] theorem simpleTag_name (t : String) (v : XVal) :
    XmlElem.name (simpleTag t v) = t := rfl

@[simp] theorem simpleTag_attrs (t : String) (v : XVal) :
    XmlElem.attrs (simpleTag t v) = [] := rfl

@[simp] theorem simpleTag_content (t : String) (v : XVal) :
    XmlElem.content (simpleTag t v) = some v := rfl

@[simp] theorem simpleTag_children (t : String) (v : XVal) :
    XmlElem.children (simpleTag t v) = [] := rfl

@[simp] theorem optionalTag_none (t : String) : optionalTag t none = [] := rfl

@[simp] theorem optionalTag_some (t : String) (v : XVal) :
    optionalTag t (some v) = [simpleTag t v] := rfl

@[simp] theorem optAttr_none (k : String) : optAttr k none = [] := rfl

@[simp] theorem optAttr_some (k : String) (v : String) :
    optAttr k (some v) = [(k, .str v)] := rfl

@[simp] theorem getName_none (tbl : List (String × String)) :
    getName tbl none = none := rfl

@[simp] theorem getName_some (tbl : List (String × String)) (i : String) :
    getName tbl (some i) = hmLookup tbl i := rfl

theorem hmLookup_append (l₁ l₂ : List (String × String)) (k : String) :
    hmLookup (l₁ ++ l₂) k =
      match hmLookup l₂ k with
      | some v => some v
      | none => hmLookup l₁ k := by
  induction l₁ with
  | nil => simp [hmLookup]; cases hmLookup l₂ k <;> rfl
  | cons q l ih =>
    obtain ⟨a, b⟩ := q
    simp only [List.cons_append, hmLookup, List.append_eq]
    rw [ih]
    cases hmLookup l₂ k <;> cases hmLookup l k <;> simp

theorem hmLookup_mem {l : List (String × String)} {k v : String}
    (h : hmLookup l k = some v) : (k, v) ∈ l := by
  induction l with
  | nil => simp [hmLookup] at h
  | cons q rest ih =>
    obtain ⟨a, b⟩ := q
    simp only [hmLookup] at h
    cases hrest : hmLookup rest k with
    | some r =>
      rw [hrest] at h
      exact List.mem_cons_of_mem _ (ih (hrest.trans h))
    | none =>
      rw [hrest] at h
      by_cases hk : a = k
      · simp [hk] at h
        subst hk h
        exact List.mem_cons_self _ _
      · simp [hk] at h

theorem hmLookup_eq_none {l : List (String × String)} {k : String}
    (h : ∀ q ∈ l, q.1 ≠ k) : hmLookup l k = none := by
  induction l with
  | nil => rfl
  | cons q rest ih =>
    obtain ⟨a, b⟩ := q
    have ha : a ≠ k := h (a, b) (List.mem_cons_self _ _)
    simp only [hmLookup, ih (fun q hq => h q (List.mem_cons_of_mem _ hq)), ha,
      if_false]

theorem hmLookup_isSome_of_mem {l : List (String × String)} {k : String}
    (h : k ∈ l.map Prod.fst) : (hmLookup l k).isSome := by
  induction l with
  | nil => simp at h
  | cons q rest ih =>
    obtain ⟨a, b⟩ := q
    simp only [hmLookup]
    cases hrest : hmLookup rest k with
    | some r => simp
    | none =>
      simp only [List.map_cons, List.mem_cons] at h
      rcases h with h | h
      · simp [h]
      · have := ih h
        rw [hrest] at this
        simp at this

theorem hmLookup_eq_of_unique {l : List (String × String)} {k v : String}
    (h1 : (k, v) ∈ l) (h2 : ∀ q ∈ l, q.1 = k → q.2 = v) :
    hmLookup l k = some v := by
  induction l with
  | nil => simp at h1
  | cons q rest ih =>
    obtain ⟨a, b⟩ := q
    simp only [hmLookup]
    cases hrest : hmLookup rest k with
    | some r =>
      have hr := hmLookup_mem hrest
      have hv : r = v := h2 (k, r) (List.mem_cons_of_mem _ hr) rfl
      simp [hv]
    | none =>
      rcases List.mem_cons.mp h1 with h | h
      · obtain ⟨rfl, rfl⟩ := Prod.mk.injEq .. ▸ h
        simp
      · have := (hmLookup_isSome_of_mem
          (List.mem_map_of_mem Prod.fst h) : (hmLookup rest k).isSome)
        rw [hrest] at this
        simp at this

-- ====================================================================
--  Generic list lemmas
-- ====================================================================

theorem listMatch_zipWith_map (f : α → β → Bool) (g : Nat → γ → β) (h : α → γ) :
    ∀ (xs : List α) (idx : List Nat), idx.length = xs.length →
    (∀ x ∈ xs, ∀ i, f x (g i (h x)) = true) →
    listMatch f xs (List.zipWith g idx (xs.map h)) = true := by
  intro xs
  induction xs with
  | nil => intro idx _ _; cases idx <;> simp [listMatch]
  | cons x xs ih =>
    intro idx hlen hf
    cases idx with
    | nil => simp at hlen
    | cons i idx' =>
      simp only [List.map_cons, List.zipWith_cons_cons, listMatch]
      rw [hf x (List.mem_cons_self _ _) i]
      simp only [Bool.true_and]
      exact ih idx' (by simpa using hlen)
        (fun a ha j => hf a (List.mem_cons_of_mem _ ha) j)

theorem listMatch_zipWith_zipWith (f : β → β → Bool) (g1 g2 : Nat → α → β) :
    ∀ (idx : List Nat) (xs : List α),
    (∀ x ∈ xs, ∀ i, f (g1 i x) (g2 i x) = true) →
    listMatch f (List.zipWith g1 idx xs) (List.zipWith g2 idx xs) = true := by
  intro idx
  induction idx with
  | nil => intro xs _; simp [listMatch]
  | cons i idx ih =>
    intro xs hf
    cases xs with
    | nil => simp [listMatch]
    | cons x xs' =>
      simp only [List.zipWith_cons_cons, listMatch]
      rw [hf x (List.mem_cons_self _ _) i]
      simp only [Bool.true_and]
      exact ih xs' (fun a ha j => hf a (List.mem_cons_of_mem _ ha) j)

theorem zipWith_pair_fst (f : Nat → β) (g : α → γ) :
    ∀ (idx : List Nat) (xs : List α),
    List.zipWith (fun i x => (f i, g x)) idx xs = (idx.map f).zip (xs.map g) := by
  intro idx
  induction idx with
  | nil => intro xs; simp
  | cons i idx ih => intro xs; cases xs <;> simp [ih]

theorem zipWith_pair_snd (f : Nat → β) (g : α → γ) :
    ∀ (idx : List Nat) (xs : List α),
    List.zipWith (fun i x => (g x, f i)) idx xs = (xs.map g).zip (idx.map f) := by
  intro idx
  induction idx with
  | nil => intro xs; simp
  | cons i idx ih => intro xs; cases xs <;> simp [ih]

-- ====================================================================
--  Closed forms of the transformation loops
-- ====================================================================

theorem transformNoiseEntries_eq (fresh : Nat → String) :
    ∀ (es : List XmlNoiseEntry) (n : Nat),
    transformNoiseEntries fresh n es
      = (List.zipWith (noiseAt fresh) (List.range' n es.length) es,
         n + es.length) := by
  intro es
  induction es with
  | nil => intro n; simp [transformNoiseEntries]
  | cons e es ih =>
    intro n
    simp only [transformNoiseEntries, ih (n + 1), List.length_cons]
    refine Prod.ext ?_ ?_
    · show noiseAt fresh n e :: _ = _
      rw [show List.range' n (es.length + 1) = n :: List.range' (n + 1) es.length
            from rfl]
      rfl
    · show n + 1 + es.length = n + (es.length + 1)
      omega

theorem transformWaypoints_eq (fresh : Nat → String) :
    ∀ (ws : List XmlPositionWaypoint) (n : Nat),
    transformWaypoints fresh n ws
      = (List.zipWith (waypointAt fresh) (List.range' n ws.length) ws,
         n + ws.length) := by
  intro ws
  induction ws with
  | nil => intro n; simp [transformWaypoints]
  | cons w ws ih =>
    intro n
    simp only [transformWaypoints, ih (n + 1), List.length_cons]
    refine Prod.ext ?_ ?_
    · show waypointAt fresh n w :: _ = _
      rw [show List.range' n (ws.length + 1) = n :: List.range' (n + 1) ws.length
            from rfl]
      rfl
    · show n + 1 + ws.length = n + (ws.length + 1)
      omega

theorem transformPulses_eq (fresh : Nat → String) :
    ∀ (ps : List XmlPulse) (n : Nat) (tbl : List (String × String)),
    transformPulses fresh n tbl ps
      = (List.zipWith (pulseAt fresh) (List.range' n ps.length) ps,
         n + ps.length,
         tbl ++ List.zipWith (fun i p => (p.name, fresh i))
                 (List.range' n ps.length) ps) := by
  intro ps
  induction ps with
  | nil => intro n tbl; simp [transformPulses]
  | cons p ps ih =>
    intro n tbl
    simp only [transformPulses, ih (n + 1), List.length_cons]
    rw [show List.range' n (ps.length + 1) = n :: List.range' (n + 1) ps.length
          from rfl]
    refine Prod.ext rfl (Prod.ext ?_ ?_)
    · show n + 1 + ps.length = n + (ps.length + 1)
      omega
    · show (tbl ++ [(p.name, fresh n)]) ++ _ = tbl ++ _
      simp [List.append_assoc, List.zipWith_cons_cons]

theorem transformAntennas_eq (fresh : Nat → String) :
    ∀ (as_ : List XmlAntenna) (n : Nat) (tbl : List (String × String)),
    transformAntennas fresh n tbl as_
      = (List.zipWith (antennaAt fresh) (List.range' n as_.length) as_,
         n + as_.length,
         tbl ++ List.zipWith (fun i a => (a.name, fresh i))
                 (List.range' n as_.length) as_) := by
  intro as_
  induction as_ with
  | nil => intro n tbl; simp [transformAntennas]
  | cons a as_ ih =>
    intro n tbl
    simp only [transformAntennas, ih (n + 1), List.length_cons]
    rw [show List.range' n (as_.length + 1) = n :: List.range' (n + 1) as_.length
          from rfl]
    refine Prod.ext rfl (Prod.ext ?_ ?_)
    · show n + 1 + as_.length = n + (as_.length + 1)
      omega
    · show (tbl ++ [(a.name, fresh n)]) ++ _ = tbl ++ _
      simp [List.append_assoc, List.zipWith_cons_cons]

theorem transformTimings_eq (fresh : Nat → String) :
    ∀ (ts : List XmlTiming) (n : Nat) (tbl : List (String × String)),
    transformTimings fresh n tbl ts
      = (List.zipWith (timingAt fresh) (timingIdx n ts) ts,
         timingEnd n ts,
         tbl ++ List.zipWith (fun i t => (t.name, fresh i)) (timingIdx n ts) ts) := by
  intro ts
  induction ts with
  | nil => intro n tbl; simp [transformTimings, timingIdx, timingEnd]
  | cons t ts ih =>
    intro n tbl
    simp only [transformTimings, transformNoiseEntries_eq, ih, timingIdx,
      timingEnd, List.zipWith_cons_cons]
    simp [timingAt, List.append_assoc, transformNoiseEntries_eq]

theorem transformPlatforms_eq (fresh : Nat → String)
    (tbl : List (String × String)) :
    ∀ (ps : List XmlPlatform) (n : Nat),
    transformPlatforms fresh tbl n ps
      = (List.zipWith (platformAt fresh tbl) (platIdx n ps) ps,
         platEnd n ps) := by
  intro ps
  induction ps with
  | nil => intro n; simp [transformPlatforms, platIdx, platEnd]
  | cons p ps ih =>
    intro n
    simp only [transformPlatforms, transformWaypoints_eq, platIdx, platEnd,
      List.zipWith_cons_cons, ih]
    simp [platformAt, transformWaypoints_eq]

-- ====================================================================
--  Identifier-counter bookkeeping
-- ====================================================================

theorem timingIdx_length : ∀ (ts : List XmlTiming) (n : Nat),
    (timingIdx n ts).length = ts.length := by
  intro ts
  induction ts with
  | nil => intro n; rfl
  | cons t ts ih => intro n; simp [timingIdx, ih]

theorem le_timingEnd : ∀ (ts : List XmlTiming) (n : Nat), n ≤ timingEnd n ts := by
  intro ts
  induction ts with
  | nil => intro n; exact Nat.le_refl n
  | cons t ts ih =>
    intro n
    calc n ≤ n + 1 + t.noise_entries.length := by omega
    _ ≤ timingEnd (n + 1 + t.noise_entries.length) ts := ih _

theorem mem_timingIdx : ∀ (ts : List XmlTiming) (n i : Nat),
    i ∈ timingIdx n ts → n ≤ i ∧ i < timingEnd n ts := by
  intro ts
  induction ts with
  | nil => intro n i h; simp [timingIdx] at h
  | cons t ts ih =>
    intro n i h
    rcases List.mem_cons.mp h with rfl | h
    · refine ⟨Nat.le_refl i, ?_⟩
      calc i < i + 1 + t.noise_entries.length := by omega
      _ ≤ timingEnd (i + 1 + t.noise_entries.length) ts := le_timingEnd ..
    · have := ih _ _ h
      exact ⟨by omega, by simpa [timingEnd] using this.2⟩

theorem timingIdx_nodup : ∀ (ts : List XmlTiming) (n : Nat),
    (timingIdx n ts).Nodup := by
  intro ts
  induction ts with
  | nil => intro n; simp [timingIdx]
  | cons t ts ih =>
    intro n
    refine List.nodup_cons.mpr ⟨?_, ih _⟩
    intro hmem
    have := mem_timingIdx _ _ _ hmem
    omega

theorem assetIdx_nodup (xml : XmlSimulation) : (assetIdx xml).Nodup := by
  unfold assetIdx
  refine List.Nodup.append
    (List.Nodup.append (List.nodup_range' ..) (timingIdx_nodup ..) ?_)
    (List.nodup_range' ..) ?_
  · intro i h1 h2
    have hb1 := (List.mem_range'_1.mp h1).2
    have hb2 := (mem_timingIdx _ _ _ h2).1
    omega
  · intro i h1 h2
    have hb2 := (List.mem_range'_1.mp h2).1
    have hte := le_timingEnd xml.timings xml.pulses.length
    rcases List.mem_append.mp h1 with h | h
    · have := (List.mem_range'_1.mp h).2
      omega
    · have := (mem_timingIdx _ _ _ h).2
      omega

theorem assetIdx_length (xml : XmlSimulation) :
    (assetIdx xml).length = (assetNames xml).length := by
  simp [assetIdx, assetNames, timingIdx_length]

-- ====================================================================
--  The transformed state in closed form
-- ====================================================================

theorem transformTbl_eq (fresh : Nat → String) (xml : XmlSimulation) :
    transformTbl fresh xml
      = List.zipWith (fun i p => (p.name, fresh i))
          (List.range' 0 xml.pulses.length) xml.pulses
        ++ List.zipWith (fun i t => (t.name, fresh i))
             (timingIdx xml.pulses.length xml.timings) xml.timings
        ++ List.zipWith (fun i a => (a.name, fresh i))
             (List.range' (timingEnd xml.pulses.length xml.timings)
               xml.antennas.length) xml.antennas := by
  rw [zipWith_pair_snd, zipWith_pair_snd, zipWith_pair_snd]
  unfold transformTbl assetNames assetIdx
  rw [List.map_append, List.map_append]
  have hl1 : (List.map XmlPulse.name xml.pulses).length
      = ((List.range' 0 xml.pulses.length).map fresh).length := by simp
  have hl2 : (List.map XmlPulse.name xml.pulses
        ++ List.map XmlTiming.name xml.timings).length
      = ((List.range' 0 xml.pulses.length).map fresh
        ++ (timingIdx xml.pulses.length xml.timings).map fresh).length := by
    simp [timingIdx_length]
  rw [List.zip_append hl2, List.zip_append hl1]

theorem transform_xml_to_state_eq (fresh : Nat → String) (xml : XmlSimulation) :
    transform_xml_to_state fresh xml
      = { globalParameters :=
            { id := "global-parameters", type := "GlobalParameters",
              simulation_name := xml.name,
              start := xml.parameters.starttime,
              endT := xml.parameters.endtime,
              rate := xml.parameters.rate,
              simSamplingRate := xml.parameters.simSamplingRate,
              c := xml.parameters.c,
              random_seed := xml.parameters.randomseed.map (fun n => (n : Int)),
              adc_bits := xml.parameters.adc_bits,
              oversample := xml.parameters.oversample,
              exportOptions :=
                { xml := xml.parameters.exportFlags.xml,
                  csv := xml.parameters.exportFlags.csv,
                  binary := xml.parameters.exportFlags.binary } },
          pulses := List.zipWith (pulseAt fresh)
            (List.range' 0 xml.pulses.length) xml.pulses,
          timings := List.zipWith (timingAt fresh)
            (timingIdx xml.pulses.length xml.timings) xml.timings,
          antennas := List.zipWith (antennaAt fresh)
            (List.range' (timingEnd xml.pulses.length xml.timings)
              xml.antennas.length) xml.antennas,
          platforms := List.zipWith (platformAt fresh (transformTbl fresh xml))
            (platIdx (timingEnd xml.pulses.length xml.timings
                       + xml.antennas.length) xml.platforms)
            xml.platforms } := by
  simp only [transform_xml_to_state, transformPulses_eq, transformTimings_eq,
    transformAntennas_eq, transformPlatforms_eq, transformTbl_eq]
  simp [List.append_assoc]

theorem id_to_name_transform (fresh : Nat → String) (xml : XmlSimulation) :
    id_to_name (transform_xml_to_state fresh xml)
      = ((assetIdx xml).map fresh).zip (assetNames xml) := by
  rw [transform_xml_to_state_eq]
  simp only [id_to_name, List.map_zipWith]
  simp only [pulseAt, timingAt, antennaAt]
  rw [zipWith_pair_fst, zipWith_pair_fst, zipWith_pair_fst]
  unfold assetIdx assetNames
  rw [List.map_append, List.map_append]
  have hl1 : ((List.range' 0 xml.pulses.length).map fresh).length
      = (List.map XmlPulse.name xml.pulses).length := by simp
  have hl2 : ((List.range' 0 xml.pulses.length).map fresh
        ++ (timingIdx xml.pulses.length xml.timings).map fresh).length
      = (List.map XmlPulse.name xml.pulses
        ++ List.map XmlTiming.name xml.timings).length := by
    simp [timingIdx_length]
  rw [List.zip_append hl2, List.zip_append hl1]

theorem hmLookup_zip_bind :
    ∀ (names vals : List String), vals.Nodup → names.length = vals.length →
    ∀ nm, (hmLookup (names.zip vals) nm).bind (hmLookup (vals.zip names))
      = if nm ∈ names then some nm else none := by
  intro names
  induction names with
  | nil => intro vals _ _ nm; simp [hmLookup]
  | cons n0 ns ih =>
    intro vals hnodup hlen nm
    cases vals with
    | nil => simp at hlen
    | cons i0 is =>
      have hnodup' : is.Nodup := (List.nodup_cons.mp hnodup).2
      have hi0 : i0 ∉ is := (List.nodup_cons.mp hnodup).1
      have hlen' : ns.length = is.length := by simpa using hlen
      rw [List.zip_cons_cons, List.zip_cons_cons]
      cases hrest : hmLookup (ns.zip is) nm with
      | some r =>
        have hmem := hmLookup_mem hrest
        have hnm : nm ∈ ns := (List.of_mem_zip hmem).1
        have houter : hmLookup ((n0, i0) :: ns.zip is) nm = some r := by
          simp [hmLookup, hrest]
        rw [houter]
        show hmLookup ((i0, n0) :: is.zip ns) r
          = if nm ∈ n0 :: ns then some nm else none
        have hcomp : hmLookup (is.zip ns) r = if nm ∈ ns then some nm else none := by
          have := ih is hnodup' hlen' nm
          rw [hrest] at this
          exact this
        simp [hmLookup, hcomp, hnm]
      | none =>
        have hnm : nm ∉ ns := by
          intro hmem
          have hk : nm ∈ (ns.zip is).map Prod.fst := by
            rw [List.map_fst_zip _ _ (Nat.le_of_eq hlen')]
            exact hmem
          have := hmLookup_isSome_of_mem hk
          rw [hrest] at this
          simp at this
        have houter : hmLookup ((n0, i0) :: ns.zip is) nm
            = if n0 = nm then some i0 else none := by
          simp [hmLookup, hrest]
        rw [houter]
        by_cases h0 : n0 = nm
        · subst h0
          rw [if_pos rfl]
          show hmLookup ((i0, n0) :: is.zip ns) i0
            = if n0 ∈ n0 :: ns then some n0 else none
          have hnone : hmLookup (is.zip ns) i0 = none := by
            refine hmLookup_eq_none ?_
            intro q hq hfst
            have hq1 : q.1 ∈ is := (List.of_mem_zip hq).1
            rw [hfst] at hq1
            exact hi0 hq1
          simp [hmLookup, hnone]
        · rw [if_neg h0]
          have h1 : ¬(nm = n0) := fun h => h0 h.symm
          show (none : Option String).bind _
            = if nm ∈ n0 :: ns then some nm else none
          simp [hnm, h1]

theorem transform_resolve (fresh : Nat → String)
    (hinj : Function.Injective fresh) (xml : XmlSimulation) (nm : String) :
    (hmLookup (transformTbl fresh xml) nm).bind
      (hmLookup (id_to_name (transform_xml_to_state fresh xml)))
      = if nm ∈ assetNames xml then some nm else none := by
  rw [id_to_name_transform]
  rw [show transformTbl fresh xml
        = (assetNames xml).zip ((assetIdx xml).map fresh) from rfl]
  exact hmLookup_zip_bind (assetNames xml) ((assetIdx xml).map fresh)
    ((assetIdx_nodup xml).map hinj)
    (by simp [assetIdx_length]) nm

-- ====================================================================
--  C10
-- ====================================================================

/-- C10: serializing a `Transmitter` component always emits the
attribute `type="continuous"` on the `transmitter` element, whatever
the transmitter's `radarType` is (changing `radarType` does not change
the output at all); and the deserializer ignores any `type` attribute
on a transmitter element (it parses to the same `XmlTransmitter` for
every attribute value `v`), the transformed component always carrying
`radarType = "pulsed"`. -/
theorem C10_transmitter_type_attr :
    ∀ (tbl : List (String × String)) (t : Transmitter) (rt : String)
      (nm a pl tm pnm : String) (v : XVal) (x : Int)
      (mp : XmlMotionPath) (frot : Option XmlFixedRotation)
      (rx : Option XmlReceiver) (tg : Option XmlTarget),
    (genComponent tbl (.Transmitter t)).map XmlElem.name = ["transmitter"]
    ∧ (genComponent tbl (.Transmitter t)).map (fun e => getAttr e "type")
        = [some (XVal.str "continuous")]
    ∧ genComponent tbl (.Transmitter { t with radarType := rt })
        = genComponent tbl (.Transmitter t)
    ∧ parseXmlTransmitter
        (.mk "transmitter"
          [("name", .str nm), ("type", v), ("antenna", .str a),
           ("pulse", .str pl), ("timing", .str tm)]
          none [simpleTag "prf" (.num x)])
        = .ok { name := nm, antenna := a, pulse := pl, timing := tm, prf := x }
    ∧ transformComponent tbl
        { name := pnm, motionpath := mp, fixedrotation := frot,
          transmitter := some { name := nm, antenna := a, pulse := pl,
                                timing := tm, prf := x },
          receiver := rx, target := tg }
        = .Transmitter
            { name := nm, radarType := "pulsed", prf := x,
              antennaId := hmLookup tbl a, pulseId := hmLookup tbl pl,
              timingId := hmLookup tbl tm } := by
  intro tbl t rt nm a pl tm pnm v x mp frot rx tg
  refine ⟨rfl, ?_, rfl, ?_, rfl⟩
  · simp [genComponent, getAttr, List.find?]
  · simp [parseXmlTransmitter, reqAttrStr, getAttr, reqChildNum, getChild,
      elemNum, simpleTag, List.find?, Bind.bind, Except.instMonad, Except.bind]

-- ====================================================================
--  C5
-- ====================================================================

/-- C5: a present `fixedrotation` deserializes to the `Fixed` variant
with its four field values; an absent one — even when a `rotationpath`
element (of arbitrary content) is present in the document — always
yields the `Fixed` variant with all four fields zero. -/
theorem C5_rotation_deserialization :
    ∀ (r : XmlFixedRotation) (fresh : Nat → String)
      (tbl : List (String × String)) (n : Nat) (xp : XmlPlatform)
      (pname interp : String) (rotAttrs : List (String × XVal))
      (rotContent : Option XVal) (rotKids : List XmlElem)
      (sa se ar er : Int),
    transformRotation (some r)
      = .Fixed { startAzimuth := r.startazimuth,
                 startElevation := r.startelevation,
                 azimuthRate := r.azimuthrate,
                 elevationRate := r.elevationrate }
    ∧ transformRotation none
      = .Fixed { startAzimuth := 0, startElevation := 0,
                 azimuthRate := 0, elevationRate := 0 }
    ∧ (transformPlatforms fresh tbl n [xp]).1.map Platform.rotation
      = [transformRotation xp.fixedrotation]
    ∧ parseXmlPlatform
        (.mk "platform" [("name", .str pname)] none
          [.mk "motionpath" [("interpolation", .str interp)] none [],
           .mk "rotationpath" rotAttrs rotContent rotKids])
      = .ok { name := pname,
              motionpath := { interpolation := interp, waypoints := [] },
              fixedrotation := none, transmitter := none,
              receiver := none, target := none }
    ∧ parseXmlPlatform
        (.mk "platform" [("name", .str pname)] none
          [.mk "motionpath" [("interpolation", .str interp)] none [],
           .mk "fixedrotation" [] none
             [simpleTag "startazimuth" (.num sa),
              simpleTag "startelevation" (.num se),
              simpleTag "azimuthrate" (.num ar),
              simpleTag "elevationrate" (.num er)]])
      = .ok { name := pname,
              motionpath := { interpolation := interp, waypoints := [] },
              fixedrotation := some { startazimuth := sa, startelevation := se,
                                      azimuthrate := ar, elevationrate := er },
              transmitter := none, receiver := none, target := none } := by
  intro r fresh tbl n xp pname interp rotAttrs rotContent rotKids sa se ar er
  refine ⟨rfl, rfl, ?_, ?_, ?_⟩
  · simp [transformPlatforms]
  · simp [parseXmlPlatform, parseXmlMotionPath, getChild, childrenNamed,
      getAttr, reqAttrStr, parseOpt, List.find?, List.filter,
      Bind.bind, Except.instMonad, Except.bind, Pure.pure, Except.pure,
      List.mapM, List.mapM.loop]
  · simp [parseXmlPlatform, parseXmlMotionPath, parseXmlFixedRotation,
      getChild, childrenNamed, getAttr, reqAttrStr, parseOpt, reqChildNum,
      elemNum, simpleTag, List.find?, List.filter,
      Bind.bind, Except.instMonad, Except.bind, Pure.pure, Except.pure,
      Except.map, List.mapM, List.mapM.loop]

-- ====================================================================
--  C7
-- ====================================================================

/-- C7: the deserializer maps a platform whose intermediate
representation carries exactly a transmitter (resp. receiver, target)
child to exactly the corresponding `PlatformComponent` variant, and the
absence of all three to `None`; a platform element with none of the
three children parses to the all-`none` intermediate form; and every
`Rotation` and `PlatformComponent` variant value serializes to exactly
one XML shape (`Fixed` to a `fixedrotation` element, `Path` to a
`rotationpath` element, `Transmitter`/`Receiver`/`Target` to a single
element of the matching name, `None` and `Monostatic` to no element). -/
theorem C7_variant_exhaustiveness :
    ∀ (tbl : List (String × String)) (nm pname interp : String)
      (mp : XmlMotionPath) (frot : Option XmlFixedRotation)
      (t : XmlTransmitter) (r : XmlReceiver) (tg : XmlTarget)
      (fr : FixedRotation) (rp : RotationPath) (mo : Monostatic)
      (tx : Transmitter) (rc : Receiver) (tgt : Target),
    transformComponent tbl
        { name := nm, motionpath := mp, fixedrotation := frot,
          transmitter := some t, receiver := none, target := none }
      = .Transmitter
          { name := t.name, radarType := "pulsed", prf := t.prf,
            antennaId := hmLookup tbl t.antenna,
            pulseId := hmLookup tbl t.pulse,
            timingId := hmLookup tbl t.timing }
    ∧ transformComponent tbl
        { name := nm, motionpath := mp, fixedrotation := frot,
          transmitter := none, receiver := some r, target := none }
      = .Receiver
          { name := r.name, window_skip := r.window_skip,
            window_length := r.window_length, prf := r.prf,
            antennaId := hmLookup tbl r.antenna,
            timingId := hmLookup tbl r.timing,
            noiseTemperature := r.noise_temp,
            noDirectPaths := false, noPropagationLoss := false }
    ∧ transformComponent tbl
        { name := nm, motionpath := mp, fixedrotation := frot,
          transmitter := none, receiver := none, target := some tg }
      = .Target
          { name := tg.name, rcs_type := tg.rcs.rtype,
            rcs_value := tg.rcs.value, rcs_filename := tg.rcs.filename,
            rcs_model := match tg.model with
                         | some m => m.mtype
                         | none => "constant",
            rcs_k := tg.model.bind XmlModel.k }
    ∧ transformComponent tbl
        { name := nm, motionpath := mp, fixedrotation := frot,
          transmitter := none, receiver := none, target := none }
      = .None
    ∧ parseXmlPlatform
        (.mk "platform" [("name", .str pname)] none
          [.mk "motionpath" [("interpolation", .str interp)] none []])
      = .ok { name := pname,
              motionpath := { interpolation := interp, waypoints := [] },
              fixedrotation := none, transmitter := none,
              receiver := none, target := none }
    ∧ XmlElem.name (genRotation (.Fixed fr)) = "fixedrotation"
    ∧ XmlElem.name (genRotation (.Path rp)) = "rotationpath"
    ∧ (genComponent tbl .None).map XmlElem.name = []
    ∧ (genComponent tbl (.Monostatic mo)).map XmlElem.name = []
    ∧ (genComponent tbl (.Transmitter tx)).map XmlElem.name = ["transmitter"]
    ∧ (genComponent tbl (.Receiver rc)).map XmlElem.name = ["receiver"]
    ∧ (genComponent tbl (.Target tgt)).map XmlElem.name = ["target"] := by
  intro tbl nm pname interp mp frot t r tg fr rp mo tx rc tgt
  refine ⟨rfl, rfl, rfl, rfl, ?_, rfl, rfl, rfl, rfl, rfl, rfl, rfl⟩
  simp [parseXmlPlatform, parseXmlMotionPath, getChild, childrenNamed,
    getAttr, reqAttrStr, parseOpt, List.find?, List.filter,
    Bind.bind, Except.instMonad, Except.bind, Pure.pure, Except.pure,
    List.mapM, List.mapM.loop]

-- ====================================================================
--  C8
-- ====================================================================

/-- C8: the serialized `parameters` block lists the global-parameter
fields in the fixed order start time, end time, rate, propagation
constant, optional extended sampling rate, optional random seed, ADC
bits, oversample ratio, then an `export` element carrying the three
boolean flags as attributes; and a present random seed (any value,
negative included) is emitted as a non-negative integer. -/
theorem C8_parameters_order (p : GlobalParameters) :
    ((genParameters p).children.map XmlElem.name
      = ["starttime", "endtime", "rate", "c"]
        ++ (match p.simSamplingRate with
            | some _ => ["simSamplingRate"]
            | none => [])
        ++ (match p.random_seed with
            | some _ => ["randomseed"]
            | none => [])
        ++ ["adc_bits", "oversample", "export"])
    ∧ (getChild (genParameters p) "export").map XmlElem.attrs
      = some [("binary", .bool p.exportOptions.binary),
              ("csv", .bool p.exportOptions.csv),
              ("xml", .bool p.exportOptions.xml)]
    ∧ ∀ x : Int, p.random_seed = some x →
        (getChild (genParameters p) "randomseed").map XmlElem.content
          = some (some (.num ((f64AsU64 x : Nat) : Int)))
        ∧ 0 ≤ ((f64AsU64 x : Nat) : Int) := by
  refine ⟨?_, ?_, ?_⟩
  · cases hs : p.simSamplingRate <;> cases hr : p.random_seed <;>
      simp [genParameters, hs, hr]
  · cases hs : p.simSamplingRate <;> cases hr : p.random_seed <;>
      simp [genParameters, getChild, List.find?, hs, hr]
  · intro x hx
    cases hs : p.simSamplingRate <;>
      refine ⟨?_, Int.ofNat_nonneg _⟩ <;>
        simp [genParameters, getChild, List.find?, hs, hx]

/-- C8 witness: a concrete instance with a negative seed present; the
emitted seed representation is the non-negative integer `0`. -/
theorem C8_parameters_order_witness :
    (getChild (genParameters wGPneg) "randomseed").map XmlElem.content
      = some (some (.num ((f64AsU64 (-5) : Nat) : Int)))
    ∧ 0 ≤ ((f64AsU64 (-5) : Nat) : Int) :=
  (C8_parameters_order wGPneg).2.2 (-5) rfl

-- ====================================================================
--  C9
-- ====================================================================

/-- An optional-tag block never contributes a child of a different
name, whether the option is present or absent. -/
theorem filter_optionalTag_ne (tag k : String) (v : Option XVal)
    (h : ¬tag = k) :
    (optionalTag tag v).filter (fun c => XmlElem.name c = k) = [] := by
  cases v <;> simp [optionalTag, simpleTag, h]

/-- An optional-attribute block never contributes an attribute of a
different key, whether the option is present or absent. -/
theorem find?_optAttr_ne (k q : String) (v : Option String)
    (h : ¬k = q) :
    (optAttr k v).find? (fun kv => kv.1 = q) = none := by
  cases v <;> simp [optAttr, h]

/-- Noise-entry children are all named `noise_entry`, so they never
match another tag. -/
theorem filter_noiseEntries_ne (l : List NoiseEntry) (k : String)
    (h : ¬"noise_entry" = k) :
    (l.map genNoiseEntry).filter (fun c => XmlElem.name c = k) = [] := by
  induction l with
  | nil => simp
  | cons e t ih => simp [genNoiseEntry, h, ih]

/-- C9: every optional model field that is `None` — individually, with
the sibling fields arbitrary (absent or present) — leaves no trace in
the emitted XML — no element and no attribute at all (in particular
never an empty one): each of the two optional parameter fields, the
pulse filename attribute, each of the four optional timing fields, the
antenna filename attribute and each of its seven optional parameters
(whatever the pattern), each of a receiver's reference attributes and
its noise temperature, each of a transmitter's reference attributes,
and a target's RCS value, RCS filename and fluctuation parameter `k`. -/
theorem C9_optional_field_omission
    (gp : GlobalParameters) (p : Pulse) (t : Timing) (a : Antenna)
    (tbl : List (String × String)) (r : Receiver) (tx : Transmitter)
    (tg : Target) :
    (gp.simSamplingRate = none →
      countNamed (genParameters gp) "simSamplingRate" = 0)
    ∧ (gp.random_seed = none →
      countNamed (genParameters gp) "randomseed" = 0)
    ∧ (p.filename = none → hasAttr (genPulse p) "filename" = false)
    ∧ (t.freqOffset = none → countNamed (genTiming t) "freq_offset" = 0)
    ∧ (t.randomFreqOffsetStdev = none →
      countNamed (genTiming t) "random_freq_offset_stdev" = 0)
    ∧ (t.phaseOffset = none → countNamed (genTiming t) "phase_offset" = 0)
    ∧ (t.randomPhaseOffsetStdev = none →
      countNamed (genTiming t) "random_phase_offset_stdev" = 0)
    ∧ (a.filename = none → hasAttr (genAntenna a) "filename" = false)
    ∧ (a.efficiency = none → countNamed (genAntenna a) "efficiency" = 0)
    ∧ (a.alpha = none → countNamed (genAntenna a) "alpha" = 0)
    ∧ (a.beta = none → countNamed (genAntenna a) "beta" = 0)
    ∧ (a.gamma = none → countNamed (genAntenna a) "gamma" = 0)
    ∧ (a.azscale = none → countNamed (genAntenna a) "azscale" = 0)
    ∧ (a.elscale = none → countNamed (genAntenna a) "elscale" = 0)
    ∧ (a.diameter = none → countNamed (genAntenna a) "diameter" = 0)
    ∧ (r.antennaId = none →
      (genComponent tbl (.Receiver r)).map (fun e => hasAttr e "antenna")
        = [false])
    ∧ (r.timingId = none →
      (genComponent tbl (.Receiver r)).map (fun e => hasAttr e "timing")
        = [false])
    ∧ (r.noiseTemperature = none →
      (genComponent tbl (.Receiver r)).map (fun e => countNamed e "noise_temp")
        = [0])
    ∧ (tx.antennaId = none →
      (genComponent tbl (.Transmitter tx)).map (fun e => hasAttr e "antenna")
        = [false])
    ∧ (tx.pulseId = none →
      (genComponent tbl (.Transmitter tx)).map (fun e => hasAttr e "pulse")
        = [false])
    ∧ (tx.timingId = none →
      (genComponent tbl (.Transmitter tx)).map (fun e => hasAttr e "timing")
        = [false])
    ∧ (tg.rcs_value = none →
      (genComponent tbl (.Target tg)).all
        (fun e => (childrenNamed e "rcs").all
          (fun c => countNamed c "value" == 0)) = true)
    ∧ (tg.rcs_filename = none →
      (genComponent tbl (.Target tg)).all
        (fun e => (childrenNamed e "rcs").all
          (fun c => !hasAttr c "filename")) = true)
    ∧ (tg.rcs_k = none →
      (genComponent tbl (.Target tg)).all
        (fun e => (XmlElem.children e).all
          (fun c => countNamed c "k" == 0)) = true) := by
  refine ⟨?_, ?_, ?_, ?_, ?_, ?_, ?_, ?_, ?_, ?_, ?_, ?_, ?_, ?_, ?_, ?_,
    ?_, ?_, ?_, ?_, ?_, ?_, ?_, ?_⟩
  · intro h
    simp [genParameters, countNamed, childrenNamed, h,
      simpleTag, filter_optionalTag_ne, List.filter_append]
  · intro h
    simp [genParameters, countNamed, childrenNamed, h,
      simpleTag, filter_optionalTag_ne, List.filter_append]
  · intro h
    simp [genPulse, hasAttr, getAttr, h, List.find?]
  · intro h
    simp [genTiming, countNamed, childrenNamed, h, simpleTag,
      filter_optionalTag_ne, filter_noiseEntries_ne, List.filter_append]
  · intro h
    simp [genTiming, countNamed, childrenNamed, h, simpleTag,
      filter_optionalTag_ne, filter_noiseEntries_ne, List.filter_append]
  · intro h
    simp [genTiming, countNamed, childrenNamed, h, simpleTag,
      filter_optionalTag_ne, filter_noiseEntries_ne, List.filter_append]
  · intro h
    simp [genTiming, countNamed, childrenNamed, h, simpleTag,
      filter_optionalTag_ne, filter_noiseEntries_ne, List.filter_append]
  · intro h
    simp [genAntenna, hasAttr, getAttr, h, List.find?]
  · intro h
    unfold genAntenna countNamed childrenNamed
    split_ifs <;>
      simp [h, filter_optionalTag_ne, List.filter_append]
  · intro h
    unfold genAntenna countNamed childrenNamed
    split_ifs <;>
      simp [h, filter_optionalTag_ne, List.filter_append]
  · intro h
    unfold genAntenna countNamed childrenNamed
    split_ifs <;>
      simp [h, filter_optionalTag_ne, List.filter_append]
  · intro h
    unfold genAntenna countNamed childrenNamed
    split_ifs <;>
      simp [h, filter_optionalTag_ne, List.filter_append]
  · intro h
    unfold genAntenna countNamed childrenNamed
    split_ifs <;>
      simp [h, filter_optionalTag_ne, List.filter_append]
  · intro h
    unfold genAntenna countNamed childrenNamed
    split_ifs <;>
      simp [h, filter_optionalTag_ne, List.filter_append]
  · intro h
    unfold genAntenna countNamed childrenNamed
    split_ifs <;>
      simp [h, filter_optionalTag_ne, List.filter_append]
  · intro h
    simp [genComponent, hasAttr, getAttr, getName, h,
      find?_optAttr_ne, List.find?_append, List.find?]
  · intro h
    simp [genComponent, hasAttr, getAttr, getName, h,
      find?_optAttr_ne, List.find?_append, List.find?]
  · intro h
    simp [genComponent, countNamed, childrenNamed, h,
      simpleTag, List.filter_append]
  · intro h
    simp [genComponent, hasAttr, getAttr, getName, h,
      find?_optAttr_ne, List.find?_append, List.find?]
  · intro h
    simp [genComponent, hasAttr, getAttr, getName, h,
      find?_optAttr_ne, List.find?_append, List.find?]
  · intro h
    simp [genComponent, hasAttr, getAttr, getName, h,
      find?_optAttr_ne, List.find?_append, List.find?]
  · intro h
    simp only [genComponent]
    split_ifs <;>
      simp [childrenNamed, countNamed, h, List.filter_append]
  · intro h
    simp only [genComponent]
    split_ifs <;>
      simp [childrenNamed, hasAttr, getAttr, h,
        List.filter_append, List.find?]
  · intro h
    simp only [genComponent]
    split_ifs <;>
      simp [countNamed, childrenNamed, h,
        filter_optionalTag_ne, List.filter_append]

/-- C9 witness: a concrete instance with one optional field absent
while a sibling is present — the extended sampling rate is absent but
the random seed is present — still emits no `simSamplingRate` child. -/
theorem C9_optional_field_omission_witness :
    countNamed (genParameters mixGP) "simSamplingRate" = 0 :=
  (C9_optional_field_omission mixGP nPulse nTiming nAntenna [] nReceiver
    nTransmitter nTarget).1 rfl

-- ====================================================================
--  C4
-- ====================================================================

/-- C4 counterexample: a platform carrying a fully populated
`Monostatic` component (whose references all resolve in the containing
state) renders **no** component element at all — the serializer's
component `match` has explicit arms only for `Receiver`, `Transmitter`
and `Target`, and `Monostatic` falls into the catch-all that emits
nothing — contradicting the claim that a Monostatic component renders a
component element carrying its scalar fields. -/
theorem C4_monostatic_renders_nothing :
    monoPlat.component = PlatformComponent.Monostatic exMono
    ∧ componentElems (genPlatform (id_to_name monoState) monoPlat) = [] := by
  exact ⟨rfl, rfl⟩

/-- C4 (amended): `Receiver` and `Transmitter` components render a
component element carrying their scalar fields plus the resolved
antenna/pulse/timing names (unresolved or absent references omitted);
a `Target` renders an `rcs` block plus a `model` block only when
`rcs_model` is not `"constant"`; `None` **and `Monostatic`** components
render no component element. -/
theorem C4_component_rendering (tbl : List (String × String)) (p : Platform)
    (r : Receiver) (tx : Transmitter) (tg : Target) (mo : Monostatic) :
    (p.component = .None → componentElems (genPlatform tbl p) = [])
    ∧ (p.component = .Monostatic mo → componentElems (genPlatform tbl p) = [])
    ∧ (p.component = .Receiver r →
        componentElems (genPlatform tbl p)
          = [.mk "receiver"
              ([("name", .str r.name)]
               ++ optAttr "antenna" (getName tbl r.antennaId)
               ++ optAttr "timing" (getName tbl r.timingId))
              none
              ([simpleTag "window_skip" (.num r.window_skip),
                simpleTag "window_length" (.num r.window_length),
                simpleTag "prf" (.num r.prf)]
               ++ optionalTag "noise_temp" (r.noiseTemperature.map XVal.num))])
    ∧ (p.component = .Transmitter tx →
        componentElems (genPlatform tbl p)
          = [.mk "transmitter"
              ([("name", .str tx.name), ("type", .str "continuous")]
               ++ optAttr "antenna" (getName tbl tx.antennaId)
               ++ optAttr "pulse" (getName tbl tx.pulseId)
               ++ optAttr "timing" (getName tbl tx.timingId))
              none [simpleTag "prf" (.num tx.prf)]])
    ∧ (p.component = .Target tg →
        componentElems (genPlatform tbl p)
          = [.mk "target" [("name", .str tg.name)] none
              ([.mk "rcs"
                  ([("type", .str tg.rcs_type)] ++ optAttr "filename" tg.rcs_filename)
                  none (optionalTag "value" (tg.rcs_value.map XVal.num))]
               ++ (if tg.rcs_model ≠ "constant" then
                     [.mk "model" [("type", .str tg.rcs_model)] none
                       (optionalTag "k" (tg.rcs_k.map XVal.num))]
                   else []))]) := by
  refine ⟨?_, ?_, ?_, ?_, ?_⟩ <;>
    · intro h
      cases hrot : p.rotation <;>
        simp [genPlatform, componentElems, genComponent, h, hrot, genRotation,
          genMotionPath, List.filter_append]

/-- C4 witness: the receiver conjunct at a concrete platform. -/
theorem C4_component_rendering_witness :
    componentElems (genPlatform [] recPlat)
      = [.mk "receiver"
          ([("name", .str nReceiver.name)]
           ++ optAttr "antenna" (getName [] nReceiver.antennaId)
           ++ optAttr "timing" (getName [] nReceiver.timingId))
          none
          ([simpleTag "window_skip" (.num nReceiver.window_skip),
            simpleTag "window_length" (.num nReceiver.window_length),
            simpleTag "prf" (.num nReceiver.prf)]
           ++ optionalTag "noise_temp" (nReceiver.noiseTemperature.map XVal.num))] :=
  (C4_component_rendering [] recPlat nReceiver nTransmitter nTarget exMono).2.2.1 rfl

-- ====================================================================
--  C6
-- ====================================================================

/-- C6 counterexample: in a state where the pulse named `"TX1"` and the
antenna named `"TX2"` share the identifier `"X"`, a receiver
referencing `"X"` serializes with `antenna="TX2"` (the last-inserted
asset wins in the identifier→name table), not `antenna="TX1"` as the
claim requires for the asset named `"TX1"` with identifier `"X"`. -/
theorem C6_duplicate_identifier_counterexample :
    ("X", "TX1") ∈ id_to_name c6state
    ∧ c6rec.antennaId = some "X"
    ∧ (genComponent (id_to_name c6state) (.Receiver c6rec)).map
        (fun e => getAttr e "antenna")
      = [some (.str "TX2")] := by
  refine ⟨by decide, rfl, by decide⟩

/-- C6 (amended): for an asset named `nm` with identifier `X`, a
platform component referencing `X` serializes with the attribute value
`nm` **provided no other asset carries the same identifier** (on a
collision the last-inserted asset wins); a component referencing an
identifier absent from all three asset lists emits no such attribute. -/
theorem C6_reference_resolution (s : ScenarioState) (X nm : String)
    (r : Receiver) (t : Transmitter) :
    ((X, nm) ∈ id_to_name s →
     (∀ q ∈ id_to_name s, q.1 = X → q.2 = nm) →
     r.antennaId = some X →
     (genComponent (id_to_name s) (.Receiver r)).map (fun e => getAttr e "antenna")
       = [some (.str nm)])
    ∧ ((X, nm) ∈ id_to_name s →
       (∀ q ∈ id_to_name s, q.1 = X → q.2 = nm) →
       t.pulseId = some X →
       (genComponent (id_to_name s) (.Transmitter t)).map (fun e => getAttr e "pulse")
         = [some (.str nm)])
    ∧ ((∀ q ∈ id_to_name s, q.1 ≠ X) → r.antennaId = some X →
       (genComponent (id_to_name s) (.Receiver r)).map (fun e => getAttr e "antenna")
         = [none])
    ∧ ((∀ q ∈ id_to_name s, q.1 ≠ X) → t.pulseId = some X →
       (genComponent (id_to_name s) (.Transmitter t)).map (fun e => getAttr e "pulse")
         = [none]) := by
  refine ⟨?_, ?_, ?_, ?_⟩
  · intro h1 h2 h3
    have hl := hmLookup_eq_of_unique h1 h2
    simp [genComponent, h3, hl, getAttr, List.find?]
  · intro h1 h2 h3
    have hl := hmLookup_eq_of_unique h1 h2
    cases hga : hmLookup (id_to_name s) <$> t.antennaId <;>
      simp [genComponent, h3, hl, getAttr, List.find?] <;>
      cases ha : getName (id_to_name s) t.antennaId <;>
        simp [ha, List.find?]
  · intro h1 h2
    have hl := hmLookup_eq_none h1
    simp [genComponent, h2, hl, getAttr, List.find?]
    cases ht : getName (id_to_name s) r.timingId <;> simp [ht, List.find?]
  · intro h1 h2
    have hl := hmLookup_eq_none h1
    simp [genComponent, h2, hl, getAttr, List.find?]
    cases ha : getName (id_to_name s) t.antennaId <;>
      cases ht : getName (id_to_name s) t.timingId <;>
        simp [ha, ht, List.find?]

/-- C6 witness: both directions at concrete states — resolution of the
uniquely held identifier `"X"` to `"TX1"`, and omission for the
absent identifier `"Z"`. -/
theorem C6_reference_resolution_witness :
    ((genComponent (id_to_name c6ustate)
        (.Receiver { nReceiver with antennaId := some "X" })).map
        (fun e => getAttr e "antenna") = [some (.str "TX1")])
    ∧ ((genComponent (id_to_name c6ustate) (.Receiver c6recZ)).map
        (fun e => getAttr e "antenna") = [none]) :=
  ⟨(C6_reference_resolution c6ustate "X" "TX1"
      { nReceiver with antennaId := some "X" } nTransmitter).1
      (by decide) (by decide) rfl,
   (C6_reference_resolution c6ustate "Z" "TX1" c6recZ nTransmitter).2.2.1
      (by decide) rfl⟩

-- ====================================================================
--  C2
-- ====================================================================

/-- C2 counterexample: a well-formed document whose transmitter element
merely omits the `antenna` attribute — a reference field the data model
(`Transmitter.antennaId : Option<String>`) declares optional — fails
the whole conversion: the XML mapping struct `XmlTransmitter` declares
`antenna` as a required `String`, so deserialization errors instead of
degrading to `None`. -/
theorem C2_missing_reference_attribute_fails :
    parseXmlSimulation c2doc = .error "missing field @antenna" := by
  rfl

/-- C2 (amended): deserialization fails exactly when the document is
malformed or a field required **by the XML mapping structs** is
missing; the transmitter/receiver antenna/pulse/timing reference
attributes are required at that level, so their absence fails the
conversion even though the data model declares the corresponding
reference fields optional; fields the mapping structs declare `Option`
(noise temperature, the optional parameter children, ...) degrade to
`None` without failing, and an unresolved (dangling) name reference
degrades to a `None` reference field rather than failing. -/
theorem C2_required_and_optional_fields :
    ∀ (nm pl tm ant pnm : String) (ws wl x st et rt cc ab ov : Int)
      (b1 b2 b3 : Bool) (mp : XmlMotionPath) (frot : Option XmlFixedRotation)
      (fresh : Nat → String),
    parseXmlTransmitter
        (.mk "transmitter"
          [("name", .str nm), ("pulse", .str pl), ("timing", .str tm)]
          none [simpleTag "prf" (.num x)])
      = .error "missing field @antenna"
    ∧ parseXmlReceiver
        (.mk "receiver" [("name", .str nm), ("antenna", .str ant)] none
          [simpleTag "window_skip" (.num ws),
           simpleTag "window_length" (.num wl),
           simpleTag "prf" (.num x)])
      = .error "missing field @timing"
    ∧ parseXmlReceiver
        (.mk "receiver"
          [("name", .str nm), ("antenna", .str ant), ("timing", .str tm)]
          none
          [simpleTag "window_skip" (.num ws),
           simpleTag "window_length" (.num wl),
           simpleTag "prf" (.num x)])
      = .ok { name := nm, antenna := ant, timing := tm,
              window_skip := ws, window_length := wl, prf := x,
              noise_temp := none }
    ∧ parseXmlParameters
        (.mk "parameters" [] none
          [simpleTag "starttime" (.num st), simpleTag "endtime" (.num et),
           simpleTag "rate" (.num rt), simpleTag "c" (.num cc),
           simpleTag "adc_bits" (.num ab), simpleTag "oversample" (.num ov),
           .mk "export"
             [("binary", .bool b1), ("csv", .bool b2), ("xml", .bool b3)]
             none []])
      = .ok { starttime := st, endtime := et, rate := rt, c := cc,
              simSamplingRate := none, randomseed := none,
              adc_bits := ab, oversample := ov,
              exportFlags := { binary := b1, csv := b2, xml := b3 } }
    ∧ transformComponent []
        { name := pnm, motionpath := mp, fixedrotation := frot,
          transmitter := some { name := nm, antenna := ant, pulse := pl,
                                timing := tm, prf := x },
          receiver := none, target := none }
      = .Transmitter
          { name := nm, radarType := "pulsed", prf := x,
            antennaId := none, pulseId := none, timingId := none }
    ∧ parse_xml_to_state fresh c2doc = .error "missing field @antenna" := by
  intro nm pl tm ant pnm ws wl x st et rt cc ab ov b1 b2 b3 mp frot fresh
  refine ⟨?_, ?_, ?_, ?_, rfl, ?_⟩
  · simp [parseXmlTransmitter, reqAttrStr, getAttr, List.find?,
      Bind.bind, Except.instMonad, Except.bind]
  · simp [parseXmlReceiver, reqAttrStr, getAttr, List.find?,
      Bind.bind, Except.instMonad, Except.bind]
  · simp [parseXmlReceiver, reqAttrStr, getAttr, reqChildNum, optChildNum,
      getChild, elemNum, simpleTag, List.find?,
      Bind.bind, Except.instMonad, Except.bind]
  · simp [parseXmlParameters, parseXmlExport, reqChildNum, optChildNum,
      optChildU64, reqAttrBool, getChild, getAttr, elemNum, simpleTag,
      List.find?, Bind.bind, Except.instMonad, Except.bind]
  · rw [parse_xml_to_state,
      show parseXmlSimulation c2doc = .error "missing field @antenna" by rfl]
    rfl

-- ====================================================================
--  Matching lemmas for two identifier supplies
-- ====================================================================

theorem listMatch_self (f : α → α → Bool) :
    ∀ (l : List α), (∀ x ∈ l, f x x = true) → listMatch f l l = true := by
  intro l
  induction l with
  | nil => intro _; rfl
  | cons x xs ih =>
    intro h
    simp only [listMatch, h x (List.mem_cons_self _ _), Bool.true_and]
    exact ih (fun a ha => h a (List.mem_cons_of_mem _ ha))

theorem timingMatch_at (f1 f2 : Nat → String) (i : Nat) (t : XmlTiming) :
    timingMatch (timingAt f1 i t) (timingAt f2 i t) = true := by
  simp only [timingMatch, timingAt, transformNoiseEntries_eq]
  simp only [Bool.and_eq_true, beq_self_eq_true, true_and]
  exact listMatch_zipWith_zipWith _ (noiseAt f1) (noiseAt f2) _ _
    (fun x _ k => by simp [noiseAt])

theorem rotationMatch_transform (o : Option XmlFixedRotation) :
    rotationMatch (transformRotation o) (transformRotation o) = true := by
  cases o <;> simp [transformRotation, rotationMatch]

theorem refMatch_transform (f1 f2 : Nat → String)
    (h1 : Function.Injective f1) (h2 : Function.Injective f2)
    (xml : XmlSimulation) (nm : String) :
    refMatch (transform_xml_to_state f1 xml) (transform_xml_to_state f2 xml)
      (hmLookup (transformTbl f1 xml) nm) (hmLookup (transformTbl f2 xml) nm)
      = true := by
  have e1 := transform_resolve f1 h1 xml nm
  have e2 := transform_resolve f2 h2 xml nm
  simp only [refMatch, resolveRef]
  rw [show (hmLookup (transformTbl f1 xml) nm).bind
        (hmLookup (id_to_name (transform_xml_to_state f1 xml)))
      = if nm ∈ assetNames xml then some nm else none from e1,
    show (hmLookup (transformTbl f2 xml) nm).bind
        (hmLookup (id_to_name (transform_xml_to_state f2 xml)))
      = if nm ∈ assetNames xml then some nm else none from e2]
  simp

theorem componentMatch_transform (f1 f2 : Nat → String)
    (h1 : Function.Injective f1) (h2 : Function.Injective f2)
    (xml : XmlSimulation) (p : XmlPlatform) :
    componentMatch (transform_xml_to_state f1 xml) (transform_xml_to_state f2 xml)
      (transformComponent (transformTbl f1 xml) p)
      (transformComponent (transformTbl f2 xml) p) = true := by
  cases htx : p.transmitter with
  | some t =>
    simp only [transformComponent, htx, componentMatch, Bool.and_eq_true,
      beq_self_eq_true, true_and]
    exact ⟨⟨refMatch_transform f1 f2 h1 h2 xml t.antenna,
      refMatch_transform f1 f2 h1 h2 xml t.pulse⟩,
      refMatch_transform f1 f2 h1 h2 xml t.timing⟩
  | none =>
    cases hrx : p.receiver with
    | some r =>
      simp only [transformComponent, htx, hrx, componentMatch, Bool.and_eq_true,
        beq_self_eq_true, true_and, Bool.not_false]
      exact ⟨refMatch_transform f1 f2 h1 h2 xml r.antenna,
        refMatch_transform f1 f2 h1 h2 xml r.timing⟩
    | none =>
      cases htg : p.target with
      | some tg => simp [transformComponent, htx, hrx, htg, componentMatch]
      | none => simp [transformComponent, htx, hrx, htg, componentMatch]

theorem platformMatch_at (f1 f2 : Nat → String)
    (h1 : Function.Injective f1) (h2 : Function.Injective f2)
    (xml : XmlSimulation) (p : XmlPlatform) (i : Nat) :
    platformMatch (transform_xml_to_state f1 xml) (transform_xml_to_state f2 xml)
      (platformAt f1 (transformTbl f1 xml) i p)
      (platformAt f2 (transformTbl f2 xml) i p) = true := by
  simp only [platformMatch, platformAt, Bool.and_eq_true, beq_self_eq_true,
    true_and]
  refine ⟨⟨?_, rotationMatch_transform _⟩,
    componentMatch_transform f1 f2 h1 h2 xml p⟩
  simp only [motionMatch, transformWaypoints_eq, Bool.and_eq_true,
    beq_self_eq_true, true_and]
  exact listMatch_zipWith_zipWith _ (waypointAt f1) (waypointAt f2) _ _
    (fun x _ k => by simp [waypointAt])

theorem frI_injective : Function.Injective frI := by
  intro a b h
  have hd : List.replicate a 'a' = List.replicate b 'a' := congrArg String.data h
  have := congrArg List.length hd
  simpa using this

theorem frJ_injective : Function.Injective frJ := by
  intro a b h
  have hd : List.replicate a 'b' = List.replicate b 'b' := congrArg String.data h
  have := congrArg List.length hd
  simpa using this

-- ====================================================================
--  C3
-- ====================================================================

/-- C3 counterexample: deserialization is **not** a deterministic
function of the document alone — the synthesized identifiers come from
the ambient random source (`Uuid::new_v4()`), modelled as the explicit
supply.  Two runs on the same parsed document with two possible
identifier draws produce unequal models (the pulse `id` fields
differ). -/
theorem C3_run_nondeterminism :
    transform_xml_to_state frA c3xml ≠ transform_xml_to_state frB c3xml := by
  decide

/-- C3 (amended): serialization is a pure function of the model (its
embedding takes no other input); deserialization is a pure function of
the document **and the identifier supply**: any two runs with (any
injective) supplies agree on every field up to the synthesized
identifiers, every reference field resolving to the same asset name. -/
theorem C3_determinism_up_to_identifiers (f1 f2 : Nat → String)
    (h1 : Function.Injective f1) (h2 : Function.Injective f2)
    (xml : XmlSimulation) :
    matchesUpToIds (transform_xml_to_state f1 xml)
      (transform_xml_to_state f2 xml) = true := by
  have hg1 := congrArg ScenarioState.globalParameters
    (transform_xml_to_state_eq f1 xml)
  have hg2 := congrArg ScenarioState.globalParameters
    (transform_xml_to_state_eq f2 xml)
  have hp1 := congrArg ScenarioState.pulses (transform_xml_to_state_eq f1 xml)
  have hp2 := congrArg ScenarioState.pulses (transform_xml_to_state_eq f2 xml)
  have ht1 := congrArg ScenarioState.timings (transform_xml_to_state_eq f1 xml)
  have ht2 := congrArg ScenarioState.timings (transform_xml_to_state_eq f2 xml)
  have ha1 := congrArg ScenarioState.antennas (transform_xml_to_state_eq f1 xml)
  have ha2 := congrArg ScenarioState.antennas (transform_xml_to_state_eq f2 xml)
  have hl1 := congrArg ScenarioState.platforms (transform_xml_to_state_eq f1 xml)
  have hl2 := congrArg ScenarioState.platforms (transform_xml_to_state_eq f2 xml)
  simp only [matchesUpToIds, Bool.and_eq_true]
  refine ⟨⟨⟨⟨?_, ?_⟩, ?_⟩, ?_⟩, ?_⟩
  · rw [hg1, hg2]
    simp [gpMatch]
  · rw [hp1, hp2]
    exact listMatch_zipWith_zipWith _ (pulseAt f1) (pulseAt f2) _ _
      (fun x _ k => by simp [pulseMatch, pulseAt])
  · rw [ht1, ht2]
    exact listMatch_zipWith_zipWith _ (timingAt f1) (timingAt f2) _ _
      (fun t _ k => timingMatch_at f1 f2 k t)
  · rw [ha1, ha2]
    exact listMatch_zipWith_zipWith _ (antennaAt f1) (antennaAt f2) _ _
      (fun a _ k => by simp [antennaMatch, antennaAt])
  · rw [hl1, hl2]
    exact listMatch_zipWith_zipWith _
      (platformAt f1 (transformTbl f1 xml)) (platformAt f2 (transformTbl f2 xml)) _ _
      (fun p _ k => platformMatch_at f1 f2 h1 h2 xml p k)

/-- C3 witness: two concrete injective supplies on the concrete
one-pulse document. -/
theorem C3_determinism_up_to_identifiers_witness :
    matchesUpToIds (transform_xml_to_state frI c3xml)
      (transform_xml_to_state frJ c3xml) = true :=
  C3_determinism_up_to_identifiers frI frJ frI_injective frJ_injective c3xml

-- ====================================================================
--  Parsing back what the serializer emitted
-- ====================================================================

theorem find?_name_map_none (f : α → XmlElem) (nm : String)
    (hf : ∀ a, XmlElem.name (f a) ≠ nm) (l : List α) :
    (l.map f).find? (fun c => XmlElem.name c = nm) = none := by
  rw [List.find?_eq_none]
  intro x hx
  rcases List.mem_map.mp hx with ⟨a, _, rfl⟩
  simp [hf a]

theorem filter_name_map_self (f : α → XmlElem) (nm : String)
    (hf : ∀ a, XmlElem.name (f a) = nm) (l : List α) :
    (l.map f).filter (fun c => XmlElem.name c = nm) = l.map f := by
  rw [List.filter_eq_self]
  intro x hx
  rcases List.mem_map.mp hx with ⟨a, _, rfl⟩
  simp [hf a]

theorem filter_name_map_nil (f : α → XmlElem) (nm : String)
    (hf : ∀ a, XmlElem.name (f a) ≠ nm) (l : List α) :
    (l.map f).filter (fun c => XmlElem.name c = nm) = [] := by
  rw [List.filter_eq_nil_iff]
  intro x hx
  rcases List.mem_map.mp hx with ⟨a, _, rfl⟩
  simp [hf a]

theorem mapM_map_ok (f : β → Except String γ) (g : α → β) (h : α → γ) :
    ∀ (l : List α), (∀ a ∈ l, f (g a) = .ok (h a)) →
    (l.map g).mapM f = .ok (l.map h) := by
  intro l
  induction l with
  | nil => intro _; rfl
  | cons a l ih =>
    intro he
    rw [List.map_cons, List.mapM_cons, he a (List.mem_cons_self _ _),
      ih (fun b hb => he b (List.mem_cons_of_mem _ hb))]
    rfl

theorem parse_genPulse (p : Pulse) :
    parseXmlPulse (genPulse p) = .ok (xmlPulseOf p) := by
  cases hf : p.filename <;>
    simp [parseXmlPulse, genPulse, xmlPulseOf, hf, reqAttrStr, optAttrStr,
      reqChildNum, getAttr, getChild, elemNum, simpleTag, List.find?,
      Bind.bind, Except.instMonad, Except.bind]

theorem parse_genNoiseEntry (ne : NoiseEntry) :
    parseXmlNoiseEntry (genNoiseEntry ne)
      = .ok { alpha := ne.alpha, weight := ne.weight } := rfl

theorem parse_genTiming (t : Timing) :
    parseXmlTiming (genTiming t) = .ok (xmlTimingOf t) := by
  have hn : ∀ tag : String, tag ≠ "noise_entry" →
      (t.noiseEntries.map genNoiseEntry).find?
        (fun c => XmlElem.name c = tag) = none := by
    intro tag htag
    exact find?_name_map_none genNoiseEntry tag
      (fun a hc => htag (by rw [← hc]; rfl)) t.noiseEntries
  have hfil : (t.noiseEntries.map genNoiseEntry).filter
      (fun c => XmlElem.name c = "noise_entry") = t.noiseEntries.map genNoiseEntry :=
    filter_name_map_self genNoiseEntry "noise_entry" (fun a => rfl) t.noiseEntries
  have hmapM := mapM_map_ok parseXmlNoiseEntry genNoiseEntry
    (fun ne => { alpha := ne.alpha, weight := ne.weight })
    t.noiseEntries (fun a _ => parse_genNoiseEntry a)
  have hloop : List.mapM.loop parseXmlNoiseEntry
      (t.noiseEntries.map genNoiseEntry) []
      = Except.ok (t.noiseEntries.map
          (fun ne => { alpha := ne.alpha, weight := ne.weight })) := hmapM
  cases h1 : t.freqOffset <;> cases h2 : t.randomFreqOffsetStdev <;>
    cases h3 : t.phaseOffset <;> cases h4 : t.randomPhaseOffsetStdev <;>
      simp [parseXmlTiming, genTiming, xmlTimingOf, h1, h2, h3, h4,
        reqAttrStr, optChildNum, reqChildNum, getAttr, getChild, childrenNamed,
        elemNum, simpleTag, List.find?, List.find?_append, List.filter_append,
        List.filter, hn, hfil, hmapM, hloop,
        Bind.bind, Except.instMonad, Except.bind, Except.map]

theorem parse_genAntenna (a : Antenna) :
    parseXmlAntenna (genAntenna a) = .ok (xmlAntennaOf a) := by
  by_cases hs : a.pattern = "sinc"
  · cases h1 : a.alpha <;> cases h2 : a.beta <;> cases h3 : a.gamma <;>
      cases h4 : a.efficiency <;> cases hf : a.filename <;>
        simp [parseXmlAntenna, genAntenna, xmlAntennaOf, hs, h1, h2, h3, h4, hf,
          reqAttrStr, optAttrStr, optChildNum, getAttr, getChild,
          elemNum, simpleTag, List.find?, List.find?_append,
          Bind.bind, Except.instMonad, Except.bind, Except.map]
  · by_cases hg : a.pattern = "gaussian"
    · cases h1 : a.azscale <;> cases h2 : a.elscale <;>
        cases h4 : a.efficiency <;> cases hf : a.filename <;>
          simp [parseXmlAntenna, genAntenna, xmlAntennaOf, hs, hg, h1, h2, h4, hf,
            reqAttrStr, optAttrStr, optChildNum, getAttr, getChild,
            elemNum, simpleTag, List.find?, List.find?_append,
            Bind.bind, Except.instMonad, Except.bind, Except.map]
    · by_cases hh : a.pattern = "squarehorn" ∨ a.pattern = "parabolic"
      · cases h1 : a.diameter <;> cases h4 : a.efficiency <;>
          cases hf : a.filename <;>
            simp [parseXmlAntenna, genAntenna, xmlAntennaOf, hs, hg, hh, h1, h4, hf,
              reqAttrStr, optAttrStr, optChildNum, getAttr, getChild,
              elemNum, simpleTag, List.find?, List.find?_append,
              Bind.bind, Except.instMonad, Except.bind, Except.map]
      · cases h4 : a.efficiency <;> cases hf : a.filename <;>
          simp [parseXmlAntenna, genAntenna, xmlAntennaOf, hs, hg, hh, h4, hf,
            reqAttrStr, optAttrStr, optChildNum, getAttr, getChild,
            elemNum, simpleTag, List.find?, List.find?_append,
            Bind.bind, Except.instMonad, Except.bind, Except.map]

theorem parse_genMotionPath (m : MotionPath) :
    parseXmlMotionPath (genMotionPath m) = .ok (xmlMotionOf m) := by
  have hmapM := mapM_map_ok parseXmlPositionWaypoint
    (fun wp : PositionWaypoint =>
      XmlElem.mk "positionwaypoint" [] none
        [simpleTag "x" (.num wp.x), simpleTag "y" (.num wp.y),
         simpleTag "altitude" (.num wp.altitude),
         simpleTag "time" (.num wp.time)])
    (fun wp => { x := wp.x, y := wp.y, altitude := wp.altitude, time := wp.time })
    m.waypoints (fun wp _ => rfl)
  have hloop : List.mapM.loop parseXmlPositionWaypoint
      (m.waypoints.map (fun wp =>
        XmlElem.mk "positionwaypoint" [] none
          [simpleTag "x" (.num wp.x), simpleTag "y" (.num wp.y),
           simpleTag "altitude" (.num wp.altitude),
           simpleTag "time" (.num wp.time)])) []
      = Except.ok (m.waypoints.map (fun wp =>
          { x := wp.x, y := wp.y, altitude := wp.altitude, time := wp.time })) :=
    hmapM
  have hfil := filter_name_map_self
    (fun wp : PositionWaypoint =>
      XmlElem.mk "positionwaypoint" [] none
        [simpleTag "x" (.num wp.x), simpleTag "y" (.num wp.y),
         simpleTag "altitude" (.num wp.altitude),
         simpleTag "time" (.num wp.time)])
    "positionwaypoint" (fun a => rfl) m.waypoints
  simp [parseXmlMotionPath, genMotionPath, xmlMotionOf, reqAttrStr, getAttr,
    childrenNamed, List.find?, hfil, hmapM, hloop,
    Bind.bind, Except.instMonad, Except.bind, Except.map]

theorem natCast_lt_zero_false (n : Nat) : ((n : Int) < 0) = False :=
  eq_false (by omega)

theorem genMotionPath_name (m : MotionPath) :
    XmlElem.name (genMotionPath m) = "motionpath" := rfl

theorem genParameters_name (g : GlobalParameters) :
    XmlElem.name (genParameters g) = "parameters" := rfl

theorem genPulse_name (p : Pulse) : XmlElem.name (genPulse p) = "pulse" := rfl

theorem genTiming_name (t : Timing) : XmlElem.name (genTiming t) = "timing" := rfl

theorem genAntenna_name (a : Antenna) :
    XmlElem.name (genAntenna a) = "antenna" := rfl

theorem genPlatform_name (tbl : List (String × String)) (p : Platform) :
    XmlElem.name (genPlatform tbl p) = "platform" := rfl

theorem parse_genParameters (g : GlobalParameters) :
    parseXmlParameters (genParameters g) = .ok (xmlParametersOf g) := by
  cases h1 : g.simSamplingRate <;> cases h2 : g.random_seed <;>
    simp [parseXmlParameters, genParameters, xmlParametersOf, parseXmlExport,
      h1, h2, reqChildNum, optChildNum, optChildU64, reqAttrBool, getChild,
      getAttr, elemNum, simpleTag, List.find?, List.find?_append,
      natCast_lt_zero_false,
      Bind.bind, Except.instMonad, Except.bind, Except.map]

theorem parse_genPlatform (tbl : List (String × String)) (p : Platform)
    (hc : componentOk tbl p.component = true) :
    parseXmlPlatform (genPlatform tbl p) = .ok (xmlPlatformOf tbl p) := by
  cases hcomp : p.component with
  | Monostatic m => rw [hcomp] at hc; simp [componentOk] at hc
  | None =>
    cases hrot : p.rotation <;>
      simp [parseXmlPlatform, genPlatform, xmlPlatformOf, genComponent,
        genRotation, genMotionPath_name, hcomp, hrot, xmlFixedOf, parse_genMotionPath,
        parseXmlFixedRotation, parseOpt, reqAttrStr, reqChildNum, getAttr,
        getChild, elemNum, simpleTag, List.find?, List.find?_append,
        Bind.bind, Except.instMonad, Except.bind, Except.map]
  | Receiver r =>
    rw [hcomp] at hc
    simp only [componentOk, Bool.and_eq_true, Option.isSome_iff_exists] at hc
    obtain ⟨⟨⟨_, _⟩, na, hna⟩, nt, hnt⟩ := hc
    cases hrot : p.rotation <;> cases hnT : r.noiseTemperature <;>
      simp [parseXmlPlatform, genPlatform, xmlPlatformOf, genComponent,
        genRotation, genMotionPath_name, hcomp, hrot, hna, hnt, hnT, xmlFixedOf, xmlReceiverOf,
        parse_genMotionPath, parseXmlFixedRotation, parseXmlReceiver, parseOpt,
        reqAttrStr, optChildNum, reqChildNum, getAttr, getChild, elemNum,
        simpleTag, List.find?, List.find?_append,
        Bind.bind, Except.instMonad, Except.bind, Except.map]
  | Transmitter t =>
    rw [hcomp] at hc
    simp only [componentOk, Bool.and_eq_true, Option.isSome_iff_exists] at hc
    obtain ⟨⟨⟨_, na, hna⟩, np, hnp⟩, nt, hnt⟩ := hc
    cases hrot : p.rotation <;>
      simp [parseXmlPlatform, genPlatform, xmlPlatformOf, genComponent,
        genRotation, genMotionPath_name, hcomp, hrot, hna, hnp, hnt, xmlFixedOf, xmlTransmitterOf,
        parse_genMotionPath, parseXmlFixedRotation, parseXmlTransmitter,
        parseOpt, reqAttrStr, reqChildNum, getAttr, getChild, elemNum,
        simpleTag, List.find?, List.find?_append,
        Bind.bind, Except.instMonad, Except.bind, Except.map]
  | Target t =>
    by_cases hm : t.rcs_model = "constant" <;>
      cases hrot : p.rotation <;> cases hv : t.rcs_value <;>
        cases hfn : t.rcs_filename <;> cases hk : t.rcs_k <;>
          simp [parseXmlPlatform, genPlatform, xmlPlatformOf, genComponent,
            genRotation, genMotionPath_name, hcomp, hrot, hm, hv, hfn, hk, xmlFixedOf, xmlTargetOf,
            parse_genMotionPath, parseXmlFixedRotation, parseXmlTarget,
            parseXmlRcs, parseXmlModel, parseOpt, reqAttrStr, optAttrStr,
            optChildNum, reqChildNum, getAttr, getChild, elemNum, simpleTag,
            List.find?, List.find?_append,
            Bind.bind, Except.instMonad, Except.bind, Except.map]

theorem parse_generate (s : ScenarioState)
    (hpl : ∀ p ∈ s.platforms, componentOk (id_to_name s) p.component = true) :
    parseXmlSimulation (generate_xml_from_state s) = .ok (xmlOf s) := by
  have hpul : List.mapM.loop parseXmlPulse (List.map genPulse s.pulses) []
      = Except.ok (List.map xmlPulseOf s.pulses) :=
    mapM_map_ok parseXmlPulse genPulse xmlPulseOf s.pulses
      (fun a _ => parse_genPulse a)
  have htim : List.mapM.loop parseXmlTiming (List.map genTiming s.timings) []
      = Except.ok (List.map xmlTimingOf s.timings) :=
    mapM_map_ok parseXmlTiming genTiming xmlTimingOf s.timings
      (fun a _ => parse_genTiming a)
  have hant : List.mapM.loop parseXmlAntenna (List.map genAntenna s.antennas) []
      = Except.ok (List.map xmlAntennaOf s.antennas) :=
    mapM_map_ok parseXmlAntenna genAntenna xmlAntennaOf s.antennas
      (fun a _ => parse_genAntenna a)
  have hplat : List.mapM.loop parseXmlPlatform
      (List.map (genPlatform (id_to_name s)) s.platforms) []
      = Except.ok (List.map (xmlPlatformOf (id_to_name s)) s.platforms) :=
    mapM_map_ok parseXmlPlatform (genPlatform (id_to_name s))
      (xmlPlatformOf (id_to_name s)) s.platforms
      (fun a ha => parse_genPlatform (id_to_name s) a (hpl a ha))
  have hfp := filter_name_map_self genPulse "pulse" genPulse_name s.pulses
  have hft := filter_name_map_self genTiming "timing" genTiming_name s.timings
  have hfa := filter_name_map_self genAntenna "antenna" genAntenna_name s.antennas
  have hfl := filter_name_map_self (genPlatform (id_to_name s)) "platform"
    (genPlatform_name (id_to_name s)) s.platforms
  have np1 : (s.timings.map genTiming).filter
      (fun c => XmlElem.name c = "pulse") = [] :=
    filter_name_map_nil _ _ (fun a => by rw [genTiming_name]; decide) _
  have np2 : (s.antennas.map genAntenna).filter
      (fun c => XmlElem.name c = "pulse") = [] :=
    filter_name_map_nil _ _ (fun a => by rw [genAntenna_name]; decide) _
  have np3 : (s.platforms.map (genPlatform (id_to_name s))).filter
      (fun c => XmlElem.name c = "pulse") = [] :=
    filter_name_map_nil _ _ (fun a => by rw [genPlatform_name]; decide) _
  have nt1 : (s.pulses.map genPulse).filter
      (fun c => XmlElem.name c = "timing") = [] :=
    filter_name_map_nil _ _ (fun a => by rw [genPulse_name]; decide) _
  have nt2 : (s.antennas.map genAntenna).filter
      (fun c => XmlElem.name c = "timing") = [] :=
    filter_name_map_nil _ _ (fun a => by rw [genAntenna_name]; decide) _
  have nt3 : (s.platforms.map (genPlatform (id_to_name s))).filter
      (fun c => XmlElem.name c = "timing") = [] :=
    filter_name_map_nil _ _ (fun a => by rw [genPlatform_name]; decide) _
  have na1 : (s.pulses.map genPulse).filter
      (fun c => XmlElem.name c = "antenna") = [] :=
    filter_name_map_nil _ _ (fun a => by rw [genPulse_name]; decide) _
  have na2 : (s.timings.map genTiming).filter
      (fun c => XmlElem.name c = "antenna") = [] :=
    filter_name_map_nil _ _ (fun a => by rw [genTiming_name]; decide) _
  have na3 : (s.platforms.map (genPlatform (id_to_name s))).filter
      (fun c => XmlElem.name c = "antenna") = [] :=
    filter_name_map_nil _ _ (fun a => by rw [genPlatform_name]; decide) _
  have nl1 : (s.pulses.map genPulse).filter
      (fun c => XmlElem.name c = "platform") = [] :=
    filter_name_map_nil _ _ (fun a => by rw [genPulse_name]; decide) _
  have nl2 : (s.timings.map genTiming).filter
      (fun c => XmlElem.name c = "platform") = [] :=
    filter_name_map_nil _ _ (fun a => by rw [genTiming_name]; decide) _
  have nl3 : (s.antennas.map genAntenna).filter
      (fun c => XmlElem.name c = "platform") = [] :=
    filter_name_map_nil _ _ (fun a => by rw [genAntenna_name]; decide) _
  simp [parseXmlSimulation, generate_xml_from_state, xmlOf, childrenNamed,
    getChild, getAttr, reqAttrStr, List.find?, List.find?_append,
    List.filter_append, List.filter, parse_genParameters, genParameters_name,
    hfp, hft, hfa, hfl, hpul, htim, hant, hplat,
    np1, np2, np3, nt1, nt2, nt3, na1, na2, na3, nl1, nl2, nl3,
    Bind.bind, Except.instMonad, Except.bind, Except.map]

-- ====================================================================
--  The transformed model matches the original up to identifiers
-- ====================================================================

theorem platIdx_length : ∀ (ps : List XmlPlatform) (n : Nat),
    (platIdx n ps).length = ps.length := by
  intro ps
  induction ps with
  | nil => intro n; rfl
  | cons p ps ih => intro n; simp [platIdx, ih]

theorem assetNames_xmlOf (s : ScenarioState) :
    assetNames (xmlOf s) = (id_to_name s).map Prod.snd := by
  simp [assetNames, xmlOf, id_to_name, xmlPulseOf, xmlTimingOf, xmlAntennaOf,
    List.map_map, Function.comp_def]

theorem refMatch_roundtrip (fresh : Nat → String)
    (hinj : Function.Injective fresh) (s : ScenarioState)
    (aid : Option String) (nm : String)
    (hna : getName (id_to_name s) aid = some nm) :
    refMatch s (transform_xml_to_state fresh (xmlOf s)) aid
      (hmLookup (transformTbl fresh (xmlOf s)) nm) = true := by
  have hmem : nm ∈ assetNames (xmlOf s) := by
    rw [assetNames_xmlOf]
    cases aid with
    | none => simp [getName] at hna
    | some a => exact List.mem_map_of_mem Prod.snd (hmLookup_mem hna)
  have hres := transform_resolve fresh hinj (xmlOf s) nm
  rw [if_pos hmem] at hres
  show (getName (id_to_name s) aid
    == (hmLookup (transformTbl fresh (xmlOf s)) nm).bind
         (hmLookup (id_to_name (transform_xml_to_state fresh (xmlOf s))))) = true
  rw [hna, hres]
  simp

theorem pulseMatch_roundtrip (fresh : Nat → String) (i : Nat) (p : Pulse)
    (h : pulseOk p = true) :
    pulseMatch p (pulseAt fresh i (xmlPulseOf p)) = true := by
  simp only [pulseOk, Bool.and_eq_true, Bool.or_eq_true, beq_iff_eq] at h
  obtain ⟨ht, hp⟩ := h
  rcases hp with hcw | hfi
  · simp [pulseMatch, pulseAt, xmlPulseOf, ht, hcw]
  · simp [pulseMatch, pulseAt, xmlPulseOf, ht, hfi]

theorem timingMatch_roundtrip (fresh : Nat → String) (i : Nat) (t : Timing)
    (h : timingOk t = true) :
    timingMatch t (timingAt fresh i (xmlTimingOf t)) = true := by
  simp only [timingOk, beq_iff_eq] at h
  simp only [timingMatch, timingAt, xmlTimingOf, transformNoiseEntries_eq,
    h, Bool.and_eq_true, beq_self_eq_true, true_and]
  refine listMatch_zipWith_map _ (noiseAt fresh)
    (fun ne : NoiseEntry => { alpha := ne.alpha, weight := ne.weight })
    t.noiseEntries _ (by simp) ?_
  intro x _ k
  simp [noiseAt]

theorem antennaMatch_roundtrip (fresh : Nat → String) (i : Nat) (a : Antenna)
    (h : antennaOk a = true) :
    antennaMatch a (antennaAt fresh i (xmlAntennaOf a)) = true := by
  simp only [antennaOk, Bool.and_eq_true, Bool.or_eq_true, Bool.and_eq_true,
    beq_iff_eq] at h
  obtain ⟨⟨⟨ht, h1⟩, h2⟩, h3⟩ := h
  simp only [antennaMatch, antennaAt, xmlAntennaOf, ht, Bool.and_eq_true,
    beq_self_eq_true, true_and]
  split_ifs <;> simp_all

theorem gpMatch_roundtrip (g : GlobalParameters) (h : gpOk g = true) :
    gpMatch g
      { id := "global-parameters", type := "GlobalParameters",
        simulation_name := g.simulation_name,
        start := g.start, endT := g.endT, rate := g.rate,
        simSamplingRate := g.simSamplingRate, c := g.c,
        random_seed := (g.random_seed.map f64AsU64).map (fun n => (n : Int)),
        adc_bits := g.adc_bits, oversample := g.oversample,
        exportOptions := { xml := g.exportOptions.xml,
                           csv := g.exportOptions.csv,
                           binary := g.exportOptions.binary } } = true := by
  simp only [gpOk, Bool.and_eq_true, beq_iff_eq] at h
  obtain ⟨ht, hseed⟩ := h
  cases hr : g.random_seed with
  | none => simp [gpMatch, ht, hr]
  | some x =>
    rw [hr] at hseed
    simp only [Bool.and_eq_true, decide_eq_true_eq] at hseed
    have hx : ((f64AsU64 x : Nat) : Int) = x := by
      unfold f64AsU64
      rw [if_neg (by omega)]
      omega
    simp [gpMatch, ht, hr, hx]

theorem platformMatch_roundtrip (fresh : Nat → String)
    (hinj : Function.Injective fresh) (s : ScenarioState) (p : Platform)
    (i : Nat) (hp : platformOk (id_to_name s) p = true) :
    platformMatch s (transform_xml_to_state fresh (xmlOf s)) p
      (platformAt fresh (transformTbl fresh (xmlOf s)) i
        (xmlPlatformOf (id_to_name s) p)) = true := by
  simp only [platformOk, Bool.and_eq_true, beq_iff_eq] at hp
  obtain ⟨⟨ht, hrot⟩, hcomp⟩ := hp
  simp only [platformMatch, platformAt, xmlPlatformOf, ht, Bool.and_eq_true,
    beq_self_eq_true, true_and]
  refine ⟨⟨?_, ?_⟩, ?_⟩
  · simp only [motionMatch, xmlMotionOf, transformWaypoints_eq,
      Bool.and_eq_true, beq_self_eq_true, true_and]
    refine listMatch_zipWith_map _ (waypointAt fresh)
      (fun wp : PositionWaypoint =>
        { x := wp.x, y := wp.y, altitude := wp.altitude, time := wp.time })
      p.motionPath.waypoints _ (by simp) ?_
    intro x _ k
    simp [waypointAt]
  · cases hr : p.rotation with
    | Path rp => rw [hr] at hrot; simp [rotationOk] at hrot
    | Fixed fr => simp [hr, xmlFixedOf, transformRotation, rotationMatch]
  · cases hc : p.component with
    | None => simp [hc, transformComponent, componentMatch]
    | Monostatic m => rw [hc] at hcomp; simp [componentOk] at hcomp
    | Transmitter t =>
      rw [hc] at hcomp
      simp only [componentOk, Bool.and_eq_true, Option.isSome_iff_exists,
        beq_iff_eq] at hcomp
      obtain ⟨⟨⟨hrt, na, hna⟩, np, hnp⟩, nt, hnt⟩ := hcomp
      simp [hc, transformComponent, componentMatch, xmlTransmitterOf,
        hna, hnp, hnt, hrt,
        refMatch_roundtrip fresh hinj s t.antennaId na hna,
        refMatch_roundtrip fresh hinj s t.pulseId np hnp,
        refMatch_roundtrip fresh hinj s t.timingId nt hnt]
    | Receiver r =>
      rw [hc] at hcomp
      simp only [componentOk, Bool.and_eq_true, Option.isSome_iff_exists,
        Bool.not_eq_true'] at hcomp
      obtain ⟨⟨⟨hd1, hd2⟩, na, hna⟩, nt, hnt⟩ := hcomp
      simp [hc, transformComponent, componentMatch, xmlReceiverOf,
        hna, hnt, hd1, hd2,
        refMatch_roundtrip fresh hinj s r.antennaId na hna,
        refMatch_roundtrip fresh hinj s r.timingId nt hnt]
    | Target t =>
      rw [hc] at hcomp
      simp only [componentOk, Bool.or_eq_true, bne_iff_ne, beq_iff_eq] at hcomp
      by_cases hm : t.rcs_model = "constant"
      · have hk : t.rcs_k = none := by
          rcases hcomp with h | h
          · exact absurd hm h
          · exact h
        simp [hc, transformComponent, componentMatch, xmlTargetOf, hm, hk]
      · simp [hc, transformComponent, componentMatch, xmlTargetOf, hm]

-- ====================================================================
--  C1
-- ====================================================================

/-- C1 counterexample: a state whose single platform carries a
rotation path and no component — every reference field trivially
resolves — does **not** round-trip even up to identifiers: the
serialized `rotationpath` element is ignored on re-parse and the
rotation comes back as a zeroed `Fixed`, a non-identifier field
difference.  (The supply `frI` is injective, so the failure is not an
artifact of identifier collisions.) -/
theorem C1_rotation_path_breaks_roundtrip :
    Function.Injective frI
    ∧ rotPathState.platforms.map Platform.component = [PlatformComponent.None]
    ∧ roundTrip frI rotPathState = false :=
  ⟨frI_injective, by decide, by decide⟩

/-- C1 (amended): the round trip model→XML→model preserves every field
up to synthetic identifiers (each reference field re-resolving to the
same asset name) for states the format can represent faithfully: the
`type` tag fields are canonical; every pulse kind is `"cw"` or
`"file"`; antennas carry no parameter their pattern does not define; a
present random seed is a representable non-negative integer; every
rotation is `Fixed`; no component is `Monostatic`; transmitters carry
`radarType = "pulsed"` and receivers `false` path flags; a
`"constant"`-model target carries no `k`; and every
transmitter/receiver reference is present and resolves (those
attributes are required on re-parse). -/
theorem C1_model_xml_model_roundtrip (fresh : Nat → String)
    (hinj : Function.Injective fresh) (s : ScenarioState)
    (hgp : gpOk s.globalParameters = true)
    (hpu : ∀ p ∈ s.pulses, pulseOk p = true)
    (hti : ∀ t ∈ s.timings, timingOk t = true)
    (han : ∀ a ∈ s.antennas, antennaOk a = true)
    (hpl : ∀ p ∈ s.platforms, platformOk (id_to_name s) p = true) :
    roundTrip fresh s = true := by
  have hcomp : ∀ p ∈ s.platforms, componentOk (id_to_name s) p.component = true := by
    intro p hp
    have := hpl p hp
    simp only [platformOk, Bool.and_eq_true] at this
    exact this.2
  unfold roundTrip
  rw [parse_generate s hcomp]
  have hG := congrArg ScenarioState.globalParameters
    (transform_xml_to_state_eq fresh (xmlOf s))
  have hP := congrArg ScenarioState.pulses
    (transform_xml_to_state_eq fresh (xmlOf s))
  have hT := congrArg ScenarioState.timings
    (transform_xml_to_state_eq fresh (xmlOf s))
  have hA := congrArg ScenarioState.antennas
    (transform_xml_to_state_eq fresh (xmlOf s))
  have hL := congrArg ScenarioState.platforms
    (transform_xml_to_state_eq fresh (xmlOf s))
  simp only [matchesUpToIds, Bool.and_eq_true]
  refine ⟨⟨⟨⟨?_, ?_⟩, ?_⟩, ?_⟩, ?_⟩
  · rw [hG]
    exact gpMatch_roundtrip s.globalParameters hgp
  · rw [hP]
    exact listMatch_zipWith_map pulseMatch (pulseAt fresh) xmlPulseOf
      s.pulses _ (by simp [xmlOf])
      (fun x hx k => pulseMatch_roundtrip fresh k x (hpu x hx))
  · rw [hT]
    exact listMatch_zipWith_map timingMatch (timingAt fresh) xmlTimingOf
      s.timings _ (by simp [xmlOf, timingIdx_length])
      (fun x hx k => timingMatch_roundtrip fresh k x (hti x hx))
  · rw [hA]
    exact listMatch_zipWith_map antennaMatch (antennaAt fresh) xmlAntennaOf
      s.antennas _ (by simp [xmlOf])
      (fun x hx k => antennaMatch_roundtrip fresh k x (han x hx))
  · rw [hL]
    exact listMatch_zipWith_map _
      (platformAt fresh (transformTbl fresh (xmlOf s)))
      (xmlPlatformOf (id_to_name s))
      s.platforms _ (by simp [xmlOf, platIdx_length])
      (fun x hx k => platformMatch_roundtrip fresh hinj s x k (hpl x hx))

/-- C1 witness: the representable state `wState` (every surviving
component variant, all three asset kinds, optional fields present and
absent) round-trips under the injective supply `frI`. -/
theorem C1_model_xml_model_roundtrip_witness : roundTrip frI wState = true :=
  C1_model_xml_model_roundtrip frI frI_injective wState
    (by decide) (by decide) (by decide) (by decide) (by decide)

end FERS
